import Mathlib

/-!
Shallow embedding of the superpixel-to-body resolution and cross-stack
overlap-matching core of the `emdata` Go package (files `data.go`,
`tiles.go`, `raveler.go`), together with theorems settling the claims
about its specification.

Modelling conventions:
* Go `int`/`int64`/`VoxelCoord` values are `Int`; Go `uint32` superpixel
  labels and slices are `Nat` (no arithmetic in the embedded code can
  overflow 32 bits on the inputs considered).
* Go maps are association lists with unique keys; `v, found := m[k]`
  becomes `lookupKey`, a read defaulting to the zero value becomes
  `lookupZero`, and map insertion (overwrite on duplicate key) becomes
  `insertKey`.  Go `map[BodyId]bool` sets are lists of their keys
  (the source only ever tests key presence).
* Code that performs I/O (file loading, PNG decoding) is embedded at the
  boundary of its pure content: a decoded superpixel tile together with
  `GetSuperpixelId` is abstracted as a label function `Int → Int → Nat`,
  and the two remap text files as their parsed line lists.
-/

/-- BodyId identifies a reconstructed body; Go `int64`, with `0` reserved
for "no body / edge / unresolved" (data.go). -/
abbrev BodyId := Int

/-- Superpixel key: a slice and an in-slice label, both Go `uint32`
(raveler.go).  Label `0` is the unlabeled/background sentinel. -/
structure Superpixel where
  Slice : Nat
  Label : Nat
deriving DecidableEq, Repr

/-- Association-list lookup modelling the Go map read `v, found := m[k]`:
`some v` when the key is present, `none` otherwise. -/
def lookupKey {α β : Type} [DecidableEq α] : List (α × β) → α → Option β
  | [], _ => none
  | (k, v) :: rest, key => if k = key then some v else lookupKey rest key

/-- Go map read with the zero default: an absent key reads as `BodyId 0`. -/
def lookupZero {α : Type} [DecidableEq α] (m : List (α × BodyId)) (k : α) : BodyId :=
  (lookupKey m k).getD 0

/-- Go map insertion `m[k] = v`: overwrites the value when the key is
present, otherwise appends a new entry. -/
def insertKey {α β : Type} [DecidableEq α] : List (α × β) → α → β → List (α × β)
  | [], k, v => [(k, v)]
  | (k', v') :: rest, k, v =>
    if k' = k then (k', v) :: rest else (k', v') :: insertKey rest k v

/-- Tiles are 1024 voxels per side (tiles.go `const TileSize = 1024`). -/
def TileSize : Int := 1024

/-- An inclusive integer range `[lo, hi]` as a list, modelling the Go
loops `for i := lo; i <= hi; i++`. -/
def intRange (lo hi : Int) : List Int :=
  (List.range (hi + 1 - lo).toNat).map (fun i => lo + i)

/-- Pixel coordinates inside one tile; Go struct `pixelPt` (tiles.go). -/
structure pixelPt where
  X : Int
  Y : Int
deriving DecidableEq, Repr

/-- Embedding of `pixelsAtRadius` (tiles.go).  Mirrors the source exactly,
including `pixels = make([]pixelPt, 8*r)`, which creates `8*r` zero-valued
points that the subsequent appends extend rather than replace. -/
def pixelsAtRadius (r x y : Int) : List pixelPt :=
  let pixels := List.replicate (8 * r).toNat ⟨0, 0⟩
  if r = 0 then pixels ++ [⟨x, y⟩]
  else
    let minX := max 0 (x - r)
    let maxX := min (TileSize - 1) (x + r)
    let minY := max 0 (y - r)
    let maxY := min (TileSize - 1) (y + r)
    let p1 := if 0 ≤ y - r then
        pixels ++ (intRange minX maxX).map (fun ix => ⟨ix, y - r⟩) else pixels
    let p2 := if y + r < TileSize then
        p1 ++ (intRange minX maxX).map (fun ix => ⟨ix, y + r⟩) else p1
    let p3 := if 0 ≤ x - r then
        p2 ++ (intRange minY maxY).map (fun iy => ⟨x - r, iy⟩) else p2
    let p4 := if x + r < TileSize then
        p3 ++ (intRange minY maxY).map (fun iy => ⟨x + r, iy⟩) else p3
    p4

/-- 2D point with integer voxel coordinates; Go `Point2d` (data.go). -/
structure Point2d where
  X : Int
  Y : Int
deriving DecidableEq, Repr

/-- Embedding of `Point2d.PixelsAtRadius` (data.go).  Mirrors the source
exactly: `radius == 0` returns just the center, and the positive-radius
case starts from `pixels = make([]Point2d, r*8)` (zero-valued points)
before appending the clipped top/bottom/left/right ring segments. -/
def Point2d.PixelsAtRadius (p : Point2d) (radius maxX maxY : Int) : List Point2d :=
  if radius = 0 then [p]
  else
    let r := radius
    let x := p.X
    let y := p.Y
    let pixels := List.replicate (r * 8).toNat ⟨0, 0⟩
    let minXCoord := max 0 (x - r)
    let maxXCoord := min maxX (x + r)
    let minYCoord := max 0 (y - r)
    let maxYCoord := min maxY (y + r)
    let p1 := if 0 ≤ y - r then
        pixels ++ (intRange minXCoord maxXCoord).map (fun ix => ⟨ix, y - r⟩) else pixels
    let p2 := if y + r ≤ maxYCoord then
        p1 ++ (intRange minXCoord maxXCoord).map (fun ix => ⟨ix, y + r⟩) else p1
    let p3 := if 0 ≤ x - r then
        p2 ++ (intRange minYCoord maxYCoord).map (fun iy => ⟨x - r, iy⟩) else p2
    let p4 := if x + r ≤ maxXCoord then
        p3 ++ (intRange minYCoord maxYCoord).map (fun iy => ⟨x + r, iy⟩) else p3
    p4

/-- Zero padding of a decimal rendering to width 3, modelling the Go
format verb `%03d` (sign precedes the padding). -/
def zeroPad3 (i : Int) : String :=
  let sign := if i < 0 then "-" else ""
  let digits := if i < 0 then toString (-i) else toString i
  sign ++ String.mk (List.replicate (3 - (sign.length + digits.length)) '0') ++ digits

/-- Embedding of `TileFilename` (tiles.go): the relative path of the tile
for a (row, col, slice); slices at 1000 and above are nested inside a
slice-thousands directory. -/
def TileFilename (row col : Int) (slice : Int) : String :=
  if slice ≥ 1000 then
    "tiles/" ++ toString TileSize ++ "/0/" ++ toString row ++ "/" ++ toString col ++
      "/s/" ++ toString (slice / 1000 * 1000) ++ "/" ++ toString slice ++ ".png"
  else
    "tiles/" ++ toString TileSize ++ "/0/" ++ toString row ++ "/" ++ toString col ++
      "/s/" ++ zeroPad3 slice ++ ".png"

/-! ### Superpixel remap tables (raveler.go) -/

/-- Embedding of the pure content of `ReadTxtMaps` (raveler.go): the two
text tables are given as their parsed line lists (superpixel→segment
triples and segment→body pairs; I/O, comment-line skipping and Sscanf are
outside the pure core).  First pass stores segments keyed by superpixel,
then every stored segment is replaced by `segmentToBodyMap[segment]`
(Go map read, zero default for an absent segment). -/
def ReadTxtMapsPure (spSeg : List (Superpixel × BodyId))
    (segBody : List (BodyId × BodyId)) : List (Superpixel × BodyId) :=
  let spToBodyMap := spSeg.foldl (fun m e => insertKey m e.1 e.2) []
  let segmentToBodyMap := segBody.foldl (fun m e => insertKey m e.1 e.2) []
  spToBodyMap.map (fun e => (e.1, lookupZero segmentToBodyMap e.2))

/-- The parsed contents of a stack directory's two remap text files. -/
structure StackDisk where
  spSeg : List (Superpixel × BodyId)
  segBody : List (BodyId × BodyId)
deriving DecidableEq, Repr

/-- The mutable mapping state of a Go `Stack` (raveler.go): the
`mapLoaded` flag and the composed superpixel→body map.  `loadCount` is
modelled from the spec: the load-count hook observing how many times the
tables were actually read from disk (the Go code has no counter; it only
has the side effect of reading the files). -/
structure StackState where
  mapLoaded : Bool
  spToBodyMap : List (Superpixel × BodyId)
  loadCount : Nat
deriving DecidableEq, Repr

/-- A freshly created stack handle: maps not loaded yet. -/
def initialStack : StackState := ⟨false, [], 0⟩

/-- Embedding of the method `Stack.ReadTxtMaps` (raveler.go): loads and
composes the tables only when `mapLoaded` is still false. -/
def StackReadTxtMaps (disk : StackDisk) (st : StackState) : StackState :=
  if st.mapLoaded then st
  else ⟨true, ReadTxtMapsPure disk.spSeg disk.segBody, st.loadCount + 1⟩

/-- Embedding of `Stack.SuperpixelToBody` (raveler.go): ensures the maps
are loaded, then reads the composed map (absent key reads as body 0).
Returns the body id together with the updated stack state. -/
def StackSuperpixelToBody (disk : StackDisk) (st : StackState)
    (s : Superpixel) : BodyId × StackState :=
  let st' := StackReadTxtMaps disk st
  (lookupZero st'.spToBodyMap s, st')

structure NearestResult where
  bodyId : BodyId
  superpixel : Superpixel
  radius : Int
deriving DecidableEq, Repr

structure NState where
  label : Nat
  nextBestSpid : Nat
  nextBestRadius : Int
deriving DecidableEq, Repr

def initNState : NState := ⟨0, 0, 6⟩

def concatMap {α β : Type} (l : List α) (f : α → List β) : List β :=
  match l with
  | [] => []
  | a :: rest => f a ++ concatMap rest f

def scanPairs (tileX tileY : Int) : List (Int × pixelPt) :=
  concatMap (intRange 0 5) (fun r => (pixelsAtRadius r tileX tileY).map (fun p => (r, p)))

def searchLoop (spidAt : Int → Int → Nat) (table : List (Superpixel × BodyId))
    (slice : Nat) (exclude avoid : List BodyId) :
    List (Int × pixelPt) → NState → NState ⊕ NearestResult
  | [], st => Sum.inl st
  | (r, p) :: rest, st =>
    if spidAt p.X p.Y = 0 then searchLoop spidAt table slice exclude avoid rest st
    else if lookupZero table ⟨slice, spidAt p.X p.Y⟩ ∈ exclude then
      searchLoop spidAt table slice exclude avoid rest
        ⟨spidAt p.X p.Y, st.nextBestSpid, st.nextBestRadius⟩
    else if lookupZero table ⟨slice, spidAt p.X p.Y⟩ ∈ avoid then
      searchLoop spidAt table slice exclude avoid rest ⟨spidAt p.X p.Y, spidAt p.X p.Y, r⟩
    else Sum.inr ⟨lookupZero table ⟨slice, spidAt p.X p.Y⟩, ⟨slice, spidAt p.X p.Y⟩, r⟩

def GetNearestBodyOfLocation (spidAt : Int → Int → Nat)
    (table : List (Superpixel × BodyId)) (slice : Nat) (tileX tileY : Int)
    (exclude avoid : List BodyId) : NearestResult :=
  match searchLoop spidAt table slice exclude avoid (scanPairs tileX tileY) initNState with
  | Sum.inr res => res
  | Sum.inl st =>
    if st.label = 0 then ⟨0, ⟨slice, 0⟩, 6⟩
    else ⟨lookupZero table ⟨slice, st.nextBestSpid⟩, ⟨slice, st.nextBestSpid⟩, st.nextBestRadius⟩

def candidates (spidAt : Int → Int → Nat) (table : List (Superpixel × BodyId))
    (slice : Nat) (exclude : List BodyId) (pairs : List (Int × pixelPt)) :
    List (Int × Nat × BodyId) :=
  pairs.filterMap (fun rp =>
    if spidAt rp.2.X rp.2.Y = 0 then none
    else if lookupZero table ⟨slice, spidAt rp.2.X rp.2.Y⟩ ∈ exclude then none
    else some (rp.1, spidAt rp.2.X rp.2.Y, lookupZero table ⟨slice, spidAt rp.2.X rp.2.Y⟩))

def spidC1cx : Int → Int → Nat := fun x y => if x = 100 ∧ y = 99 then 5 else 0

def spidC2cx : Int → Int → Nat := fun x y =>
  if x = 100 ∧ y = 99 then 10 else if x = 98 ∧ y = 98 then 20 else 0


def nstep (spidAt : Int → Int → Nat) (table : List (Superpixel × BodyId))
    (slice : Nat) (exclude : List BodyId) (st : NState) (rp : Int × pixelPt) : NState :=
  if spidAt rp.2.X rp.2.Y = 0 then st
  else if lookupZero table ⟨slice, spidAt rp.2.X rp.2.Y⟩ ∈ exclude then
    ⟨spidAt rp.2.X rp.2.Y, st.nextBestSpid, st.nextBestRadius⟩
  else ⟨spidAt rp.2.X rp.2.Y, spidAt rp.2.X rp.2.Y, rp.1⟩

def nfold (spidAt : Int → Int → Nat) (table : List (Superpixel × BodyId))
    (slice : Nat) (exclude : List BodyId) (pairs : List (Int × pixelPt)) (st : NState) : NState :=
  pairs.foldl (nstep spidAt table slice exclude) st

/-! ### Overlap matching (raveler.go) -/

/-- One step of `bodyToSpMap[bodyId] = append(bodyToSpMap[bodyId], superpixel)`
(Go map of slices): append to an existing entry or create one. -/
def insertAppendSp (m : List (BodyId × List Superpixel)) (b : BodyId) (sp : Superpixel) :
    List (BodyId × List Superpixel) :=
  match m with
  | [] => [(b, [sp])]
  | (k, sps) :: rest =>
    if k = b then (k, sps ++ [sp]) :: rest else (k, sps) :: insertAppendSp rest b sp

/-- Embedding of `Stack.GetBodyToSuperpixelsMap` (raveler.go): one pass over
the composed superpixel→body map, keeping the bodies in `bodySet`. -/
def GetBodyToSuperpixelsMap (spToBody : List (Superpixel × BodyId)) (bodySet : List BodyId) :
    List (BodyId × List Superpixel) :=
  spToBody.foldl (fun m e => if e.2 ∈ bodySet then insertAppendSp m e.2 e.1 else m) []

/-- `overlaps[bodyId2] += 1` on a Go `map[BodyId]int`: counts only ever grow
from zero by ones, so they are embedded as `Nat`. -/
def incrOverlap : List (BodyId × Nat) → BodyId → List (BodyId × Nat)
  | [], b => [(b, 1)]
  | (k, c) :: rest, b => if k = b then (k, c + 1) :: rest else (k, c) :: incrOverlap rest b

/-- `overlapsMap[bodyId1][bodyId2] += 1` including the creation of the inner
map on first use (raveler.go). -/
def incrNested : List (BodyId × List (BodyId × Nat)) → BodyId → BodyId →
    List (BodyId × List (BodyId × Nat))
  | [], b, b2 => [(b, incrOverlap [] b2)]
  | (k, ov) :: rest, b, b2 =>
    if k = b then (k, incrOverlap ov b2) :: rest else (k, ov) :: incrNested rest b b2

/-- The flat tally a single body accumulates over its superpixels: each
superpixel found in the target map votes for its target body. -/
def tallyFlat (sp2 : List (Superpixel × BodyId)) (ov : List (BodyId × Nat))
    (sps : List Superpixel) : List (BodyId × Nat) :=
  sps.foldl (fun ov sp => match lookupKey sp2 sp with
    | some b2 => incrOverlap ov b2
    | none => ov) ov

/-- The inner loop of `OverlapAnalysis` for one source body. -/
def tallyBody (sp2 : List (Superpixel × BodyId)) (om : List (BodyId × List (BodyId × Nat)))
    (b : BodyId) (sps : List Superpixel) : List (BodyId × List (BodyId × Nat)) :=
  sps.foldl (fun om sp => match lookupKey sp2 sp with
    | some b2 => incrNested om b b2
    | none => om) om

/-- The overlap tally of `OverlapAnalysis`: for every source body and each
of its superpixels, vote for the target body the superpixel resolves to
in the target stack's composed map (unresolved superpixels only feed a
logged counter). -/
def OverlapsMapOf (sp2 : List (Superpixel × BodyId)) (bmap : List (BodyId × List Superpixel)) :
    List (BodyId × List (BodyId × Nat)) :=
  bmap.foldl (fun om e => tallyBody sp2 om e.1 e.2) []

/-- Winner selection over one body's tally (raveler.go): starting from
`largest = 0`, `matchedBodyId = 0`, keep any strictly larger count.
Returns (largest, matchedBodyId). -/
def bestIn (ov : List (BodyId × Nat)) : Nat × BodyId :=
  ov.foldl (fun acc e => if e.2 > acc.1 then (e.2, e.1) else acc) (0, 0)

/-- Go struct `BestOverlap` (raveler.go). -/
structure BestOverlap where
  MatchedBody : BodyId
  OverlapSize : Nat
  MaxOverlap : Nat
deriving DecidableEq, Repr

/-- Embedding of `OverlapAnalysis` (raveler.go), with the two stacks given
by the source stack's composed superpixel→body map and the target stack's
composed map: build the source inverse index for `bodySet`, tally votes,
then pick each source body's maximal-count target body, with
`MaxOverlap = len(body1ToSpMap[bodyId1])`. -/
def OverlapAnalysis (sp1 sp2 : List (Superpixel × BodyId)) (bodySet : List BodyId) :
    List (BodyId × BestOverlap) :=
  let body1ToSpMap := GetBodyToSuperpixelsMap sp1 bodySet
  (OverlapsMapOf sp2 body1ToSpMap).foldl (fun mm e =>
    mm ++ [(e.1, ⟨(bestIn e.2).2, (bestIn e.2).1,
      ((lookupKey body1ToSpMap e.1).getD []).length⟩)]) []


/-! ### Quality gate (raveler.go SuperpixelBoundsChanged) -/

/-- Go struct `SuperpixelBound` (raveler.go): top-left corner, width,
height and volume in voxels. -/
structure SuperpixelBound where
  MinX : Int
  MinY : Int
  Width : Int
  Height : Int
  Volume : Int
deriving DecidableEq, Repr

/-- `voxelsTotal` accumulated by `SuperpixelBoundsChanged`: the summed
volume of the first stack's superpixel bounds. -/
def totalVoxels (m : List (Superpixel × SuperpixelBound)) : Int :=
  m.foldl (fun acc e => acc + e.2.Volume) 0

/-- `voxelsDiff` accumulated by `SuperpixelBoundsChanged`: per superpixel
of the first stack, the absolute volume difference against the second
stack, the whole volume when the superpixel is missing there. -/
def voxelsDiffOf (m1 m2 : List (Superpixel × SuperpixelBound)) : Int :=
  m1.foldl (fun acc e =>
    match lookupKey m2 e.1 with
    | none => acc + e.2.Volume
    | some b2 =>
      if b2.Volume > e.2.Volume then acc + (b2.Volume - e.2.Volume)
      else acc + (e.2.Volume - b2.Volume)) 0

/-- Decidable equality for `Except` results, so that gate outcomes can be
checked on concrete inputs. -/
instance {ε α : Type} [DecidableEq ε] [DecidableEq α] : DecidableEq (Except ε α) :=
  fun a b =>
    match a, b with
    | Except.error x, Except.error y =>
      if h : x = y then isTrue (by rw [h]) else isFalse (fun hc => h (by cases hc; rfl))
    | Except.ok x, Except.ok y =>
      if h : x = y then isTrue (by rw [h]) else isFalse (fun hc => h (by cases hc; rfl))
    | Except.error _, Except.ok _ => isFalse (fun hc => by cases hc)
    | Except.ok _, Except.error _ => isFalse (fun hc => by cases hc)

/-- Number of binary digits of a natural number (0 for 0), via a
fuel-bounded halving loop so that it reduces in the kernel. -/
def bitlenFuel : Nat → Nat → Nat
  | 0, _ => 0
  | fuel + 1, n => if n = 0 then 0 else bitlenFuel fuel (n / 2) + 1

/-- Number of binary digits of a natural number. -/
def bitlen (n : Nat) : Nat := bitlenFuel n n

/-- Round a natural number to 24 significant bits (IEEE round to nearest,
ties to even), returning the mantissa and the power-of-two shift so that
the rounded value is `mantissa * 2 ^ shift`. -/
def roundMant (n : Nat) : Nat × Nat :=
  let L := bitlen n
  if L ≤ 24 then (n, 0)
  else
    let s := L - 24
    let q := n / 2 ^ s
    let r := n % 2 ^ s
    let half := 2 ^ s / 2
    let q2 :=
      if r < half then q
      else if half < r then q + 1
      else if q % 2 = 0 then q else q + 1
    (q2, s)

/-- A finite IEEE binary32 value `±mant * 2 ^ exp` (`mant = 0` encodes
zero).  Infinities and NaN never need representing here: the only place
the gate's float32 arithmetic can leave the finite range is division by
zero, which is handled explicitly in `gateTrips`.  Conversion from a Go
`int` can never overflow binary32's exponent range, and the quotient of
two converted nonzero ints is at least 2^-63 in magnitude, far above the
subnormal range, so this dyadic model is bit-exact for the gate. -/
structure F32 where
  sign : Bool
  mant : Nat
  exp : Int
deriving DecidableEq, Repr

/-- The Go conversion `float32(v)` of an integer: round the magnitude to
24 significant bits, to nearest, ties to even. -/
def intToF32 (v : Int) : F32 :=
  let ms := roundMant v.natAbs
  ⟨decide (v < 0), ms.1, (ms.2 : Int)⟩

/-- IEEE binary32 division for a nonzero divisor: the exact quotient
rounded to 24 significant bits, to nearest, with the remainder acting as
the sticky bit in the tie case. -/
def divF32 (a b : F32) : F32 :=
  if a.mant = 0 then ⟨a.sign != b.sign, 0, 0⟩
  else
    let x := a.mant * 2 ^ 48
    let q0 := x / b.mant
    let r0 := x % b.mant
    let s := bitlen q0 - 24
    let q := q0 / 2 ^ s
    let r := q0 % 2 ^ s
    let half := 2 ^ s / 2
    let up :=
      if r < half then false
      else if half < r then true
      else if r0 = 0 then decide (q % 2 = 1) else true
    ⟨a.sign != b.sign, if up then q + 1 else q, a.exp - b.exp - 48 + (s : Int)⟩

/-- Strict order on the values represented by two `F32`s, by scaling both
mantissas to the smaller exponent. -/
def ltF32 (a b : F32) : Bool :=
  let sab : Nat × Nat :=
    if a.exp ≤ b.exp then (a.mant, b.mant * 2 ^ (b.exp - a.exp).toNat)
    else (a.mant * 2 ^ (a.exp - b.exp).toNat, b.mant)
  match a.sign, b.sign with
  | false, false => decide (sab.1 < sab.2)
  | true, true => decide (sab.2 < sab.1)
  | true, false => decide (0 < sab.1 + sab.2)
  | false, true => false

/-- The gate comparison of `SuperpixelBoundsChanged` (raveler.go):
`float32(voxelsDiff) / float32(voxelsTotal) > 0.10` in Go float32
semantics.  When the divisor converts to zero the Go quotient is ±Inf
(NaN when the dividend is zero too), and of those only +Inf compares
greater than 0.10; otherwise the finite quotient is compared against the
float32 value of the constant `0.10`, which is the binary32 nearest to
1/10 and hence equals `float32(1) / float32(10)`, computed here by the
same division. -/
def gateTrips (voxelsDiff voxelsTotal : Int) : Bool :=
  let fd := intToF32 voxelsDiff
  let ft := intToF32 voxelsTotal
  if ft.mant = 0 then decide (fd.mant ≠ 0) && !fd.sign
  else ltF32 (divF32 (intToF32 1) (intToF32 10)) (divF32 fd ft)

/-- Embedding of `SuperpixelBoundsChanged` (raveler.go) from the parsed
bounds tables of the two stacks: `log.Fatalln` when the float32-computed
`percentDiff` exceeds the float32 constant 0.10 becomes `Except.error`;
otherwise the function returns false. -/
def SuperpixelBoundsChanged (spBounds1 spBounds2 : List (Superpixel × SuperpixelBound)) :
    Except String Bool :=
  if gateTrips (voxelsDiffOf spBounds1 spBounds2) (totalVoxels spBounds1) = true then
    Except.error "FATAL ERROR: More than 10% voxel difference in superpixels between stacks"
  else Except.ok false

/-- Modelled from the spec: the quality-gate invocation inside
`OverlapAnalysis` exists in the source only as a commented-out block
(raveler.go, the `SuperpixelsChanged` quality-control comment), so the
enabled composition is taken from the spec: with the gate enabled, the
gate check runs before matching and its fatal abort prevents any
BestOverlapMap from being produced.  The gate itself
(`SuperpixelBoundsChanged`) and the matching (`OverlapAnalysis`) are
embedded from the source. -/
def OverlapAnalysisGated (spBounds1 spBounds2 : List (Superpixel × SuperpixelBound))
    (sp1 sp2 : List (Superpixel × BodyId)) (bodySet : List BodyId) :
    Except String (List (BodyId × BestOverlap)) :=
  match SuperpixelBoundsChanged spBounds1 spBounds2 with
  | Except.error e => Except.error e
  | Except.ok _ => Except.ok (OverlapAnalysis sp1 sp2 bodySet)

def sp1C3w : List (Superpixel × BodyId) :=
  [(⟨0, 1⟩, 5), (⟨0, 2⟩, 5), (⟨0, 3⟩, 5), (⟨0, 4⟩, 5), (⟨0, 5⟩, 5),
   (⟨0, 6⟩, 5), (⟨0, 7⟩, 5), (⟨0, 8⟩, 5), (⟨0, 9⟩, 5), (⟨0, 10⟩, 5)]

def sp2C3w : List (Superpixel × BodyId) :=
  [(⟨0, 1⟩, 21), (⟨0, 2⟩, 21), (⟨0, 3⟩, 21), (⟨0, 4⟩, 21), (⟨0, 5⟩, 21),
   (⟨0, 6⟩, 21), (⟨0, 7⟩, 21), (⟨0, 8⟩, 21), (⟨0, 9⟩, 22), (⟨0, 10⟩, 22)]

def spsC3w : List Superpixel :=
  [⟨0, 1⟩, ⟨0, 2⟩, ⟨0, 3⟩, ⟨0, 4⟩, ⟨0, 5⟩, ⟨0, 6⟩, ⟨0, 7⟩, ⟨0, 8⟩, ⟨0, 9⟩, ⟨0, 10⟩]

/-! ### Theorems -/

/-! ### Helper lemmas for the ring-enumeration functions -/

lemma ite_append_factor {α : Type} (c : Prop) [Decidable c] (p s : List α) :
    (if c then p ++ s else p) = p ++ (if c then s else []) := by
  split <;> simp

lemma take_append_replicate {α : Type} (n : Nat) (z : α) (l : List α) :
    (List.replicate n z ++ l).take n = List.replicate n z := by
  induction n with
  | zero => simp
  | succ m ih => simp [List.replicate_succ, ih]

/-- C10: for every radius r > 0 the ring-enumeration functions
(`pixelsAtRadius` of tiles.go and `Point2d.PixelsAtRadius` of data.go)
return a list whose first 8*r elements are the zero-valued point (0,0) —
the slice is allocated with length 8*r before the ring segments are
appended — so every ring scan at positive radius also visits pixel (0,0)
8*r times; only the radius-0 case is free of this prefix. -/
theorem C10_positive_radius_zero_prefix (r : Int) (hr : 0 < r)
    (x y maxX maxY : Int) (p : Point2d) :
    (pixelsAtRadius r x y).take (8 * r).toNat = List.replicate (8 * r).toNat ⟨0, 0⟩ ∧
    (Point2d.PixelsAtRadius p r maxX maxY).take (r * 8).toNat
      = List.replicate (r * 8).toNat ⟨0, 0⟩ ∧
    pixelsAtRadius 0 x y = [⟨x, y⟩] ∧
    Point2d.PixelsAtRadius p 0 maxX maxY = [p] := by
  have hne : r ≠ 0 := hr.ne'
  refine ⟨?_, ?_, ?_, ?_⟩
  · simp only [pixelsAtRadius, if_neg hne, ite_append_factor]
    simp only [List.append_assoc]
    exact take_append_replicate _ _ _
  · simp only [Point2d.PixelsAtRadius, if_neg hne, ite_append_factor]
    simp only [List.append_assoc]
    exact take_append_replicate _ _ _
  · simp [pixelsAtRadius]
  · simp [Point2d.PixelsAtRadius]

/-- Witness for C10 at radius 1, center (0,0), bounds 10,10. -/
theorem C10_positive_radius_zero_prefix_witness :
    0 < (1 : Int) ∧
    ((pixelsAtRadius 1 0 0).take (8 * 1 : Int).toNat
        = List.replicate (8 * 1 : Int).toNat ⟨0, 0⟩ ∧
      (Point2d.PixelsAtRadius ⟨0, 0⟩ 1 10 10).take (1 * 8 : Int).toNat
        = List.replicate (1 * 8 : Int).toNat ⟨0, 0⟩ ∧
      pixelsAtRadius 0 0 0 = [⟨0, 0⟩] ∧
      Point2d.PixelsAtRadius ⟨0, 0⟩ 0 10 10 = [⟨0, 0⟩]) :=
  ⟨by decide, C10_positive_radius_zero_prefix 1 (by decide) 0 0 10 10 ⟨0, 0⟩⟩

/-- C7: the radius-0 call at (5,5) with bounds 10,10 does yield exactly
[(5,5)], but the radius-1 call at (0,0) does not yield only the bottom and
right ring segments: the `make([]Point2d, r*8)` allocation leaves an
8-element prefix of zero-valued points before those segments.  This
contradicts both the claim and the function's own documentation
("returns an array of pixels at a given radius"), so the length-vs-capacity
allocation is a slip in the code. -/
theorem C7_pixels_at_radius_failing_input_eval :
    Point2d.PixelsAtRadius ⟨5, 5⟩ 0 10 10 = [⟨5, 5⟩] ∧
    Point2d.PixelsAtRadius ⟨0, 0⟩ 1 10 10
      = List.replicate 8 ⟨0, 0⟩ ++ [⟨0, 1⟩, ⟨1, 1⟩, ⟨1, 0⟩, ⟨1, 1⟩] ∧
    Point2d.PixelsAtRadius ⟨0, 0⟩ 1 10 10 ≠ [⟨0, 1⟩, ⟨1, 1⟩, ⟨1, 0⟩, ⟨1, 1⟩] := by
  decide

/-- C8: for every row and col, the tile path for slice 42 takes the flat
form ending in "/s/042.png" and the path for slice 1042 takes the nested
form ending in "/s/1000/1042.png". -/
theorem C8_tile_filename_path_forms (row col : Int) :
    (∃ pre, TileFilename row col 42 = pre ++ "/s/042.png") ∧
    (∃ pre, TileFilename row col 1042 = pre ++ "/s/1000/1042.png") := by
  constructor
  · refine ⟨"tiles/" ++ toString TileSize ++ "/0/" ++ toString row ++ "/" ++ toString col, ?_⟩
    unfold TileFilename
    rw [if_neg (by decide)]
    simp only [String.append_assoc]
    rfl
  · refine ⟨"tiles/" ++ toString TileSize ++ "/0/" ++ toString row ++ "/" ++ toString col, ?_⟩
    unfold TileFilename
    rw [if_pos (by decide)]
    simp only [String.append_assoc]
    rfl

/-- C6: after loading a superpixel→segment table containing exactly
{(slice 0, label 1) → segment 100} and a segment→body table containing
exactly {100 → 7}, `SuperpixelToBody (0,1)` returns 7 and
`SuperpixelToBody (0,99)` (a key absent from the composed map)
returns 0. -/
theorem C6_compose_roundtrip :
    (StackSuperpixelToBody ⟨[(⟨0, 1⟩, 100)], [(100, 7)]⟩ initialStack ⟨0, 1⟩).1 = 7 ∧
    (StackSuperpixelToBody ⟨[(⟨0, 1⟩, 100)], [(100, 7)]⟩ initialStack ⟨0, 99⟩).1 = 0 := by
  decide

/-- C9: calling the remap-table loader twice on the same stack handle is
a no-op the second time: the state after the second call (including the
composed mapping and the disk-load count) equals the state after the
first call, for every disk content and every starting state. -/
theorem C9_read_txt_maps_idempotent (disk : StackDisk) (st : StackState) :
    StackReadTxtMaps disk (StackReadTxtMaps disk st) = StackReadTxtMaps disk st := by
  unfold StackReadTxtMaps
  by_cases h : st.mapLoaded
  · simp [h]
  · simp [h]

lemma mem_of_getLast?_eq {α : Type} {l : List α} {c : α} (h : l.getLast? = some c) :
    c ∈ l := by
  have hx : c ∈ l.getLast? := Option.mem_def.mpr h
  obtain ⟨hne, hc⟩ := List.mem_getLast?_eq_getLast hx
  rw [hc]; exact List.getLast_mem hne

lemma lookupZero_label_zero (table : List (Superpixel × BodyId)) (s : Nat) :
    (∀ q ∈ table, q.1.Label ≠ 0) → lookupZero table ⟨s, 0⟩ = 0 := by
  induction table with
  | nil => intro _; rfl
  | cons q rest ih =>
    intro h0
    have hq : q.1 ≠ (⟨s, 0⟩ : Superpixel) := by
      intro he
      exact h0 q (by simp) (by rw [he])
    simp only [lookupZero, lookupKey, if_neg hq]
    exact ih (fun p hp => h0 p (by simp [hp]))

section SearchLemmas

variable (spidAt : Int → Int → Nat) (table : List (Superpixel × BodyId))
  (slice : Nat) (exclude avoid : List BodyId)


lemma candidates_cons_zero {r : Int} {p : pixelPt} {rest : List (Int × pixelPt)}
    (h1 : spidAt p.X p.Y = 0) :
    candidates spidAt table slice exclude ((r, p) :: rest)
      = candidates spidAt table slice exclude rest := by
  simp [candidates, List.filterMap_cons, h1]

lemma candidates_cons_excluded {r : Int} {p : pixelPt} {rest : List (Int × pixelPt)}
    (h1 : ¬ spidAt p.X p.Y = 0)
    (h2 : lookupZero table ⟨slice, spidAt p.X p.Y⟩ ∈ exclude) :
    candidates spidAt table slice exclude ((r, p) :: rest)
      = candidates spidAt table slice exclude rest := by
  simp [candidates, List.filterMap_cons, h1, h2]

lemma candidates_cons_cand {r : Int} {p : pixelPt} {rest : List (Int × pixelPt)}
    (h1 : ¬ spidAt p.X p.Y = 0)
    (h2 : ¬ lookupZero table ⟨slice, spidAt p.X p.Y⟩ ∈ exclude) :
    candidates spidAt table slice exclude ((r, p) :: rest)
      = (r, spidAt p.X p.Y, lookupZero table ⟨slice, spidAt p.X p.Y⟩)
          :: candidates spidAt table slice exclude rest := by
  simp [candidates, List.filterMap_cons, h1, h2]

lemma mem_candidates {c : Int × Nat × BodyId} {pairs : List (Int × pixelPt)}
    (hc : c ∈ candidates spidAt table slice exclude pairs) :
    ∃ rp ∈ pairs, spidAt rp.2.X rp.2.Y ≠ 0 ∧
      lookupZero table ⟨slice, spidAt rp.2.X rp.2.Y⟩ ∉ exclude ∧
      c = (rp.1, spidAt rp.2.X rp.2.Y, lookupZero table ⟨slice, spidAt rp.2.X rp.2.Y⟩) := by
  simp only [candidates, List.mem_filterMap] at hc
  obtain ⟨rp, hrp, hf⟩ := hc
  refine ⟨rp, hrp, ?_⟩
  by_cases h1 : spidAt rp.2.X rp.2.Y = 0
  · simp [h1] at hf
  · by_cases h2 : lookupZero table ⟨slice, spidAt rp.2.X rp.2.Y⟩ ∈ exclude
    · simp [h1, h2] at hf
    · simp only [h1, h2] at hf
      simp at hf
      exact ⟨h1, h2, hf.symm⟩

lemma searchLoop_inl {pairs : List (Int × pixelPt)} {st0 st : NState}
    (h : searchLoop spidAt table slice exclude avoid pairs st0 = Sum.inl st) :
    st = nfold spidAt table slice exclude pairs st0 ∧
      ∀ c ∈ candidates spidAt table slice exclude pairs, c.2.2 ∈ avoid := by
  induction pairs generalizing st0 with
  | nil =>
    simp only [searchLoop, Sum.inl.injEq] at h
    simp [nfold, candidates, ← h]
  | cons rp rest ih =>
    obtain ⟨r, p⟩ := rp
    by_cases h1 : spidAt p.X p.Y = 0
    · simp only [searchLoop, if_pos h1] at h
      obtain ⟨hst, hav⟩ := ih h
      rw [candidates_cons_zero spidAt table slice exclude h1]
      exact ⟨by simpa [nfold, nstep, h1] using hst, hav⟩
    · by_cases h2 : lookupZero table ⟨slice, spidAt p.X p.Y⟩ ∈ exclude
      · simp only [searchLoop, if_neg h1, if_pos h2] at h
        obtain ⟨hst, hav⟩ := ih h
        rw [candidates_cons_excluded spidAt table slice exclude h1 h2]
        exact ⟨by simpa [nfold, nstep, h1, h2] using hst, hav⟩
      · by_cases h3 : lookupZero table ⟨slice, spidAt p.X p.Y⟩ ∈ avoid
        · simp only [searchLoop, if_neg h1, if_neg h2, if_pos h3] at h
          obtain ⟨hst, hav⟩ := ih h
          rw [candidates_cons_cand spidAt table slice exclude h1 h2]
          refine ⟨by simpa [nfold, nstep, h1, h2] using hst, ?_⟩
          intro c hc
          rcases List.mem_cons.mp hc with hc | hc
          · rw [hc]; exact h3
          · exact hav c hc
        · simp only [searchLoop, if_neg h1, if_neg h2, if_neg h3] at h
          cases h

lemma searchLoop_inr {pairs : List (Int × pixelPt)} {st0 : NState} {res : NearestResult}
    (h : searchLoop spidAt table slice exclude avoid pairs st0 = Sum.inr res) :
    (res.radius, res.superpixel.Label, res.bodyId)
        ∈ candidates spidAt table slice exclude pairs ∧
      res.bodyId ∉ avoid ∧ res.superpixel.Slice = slice := by
  induction pairs generalizing st0 with
  | nil => simp [searchLoop] at h
  | cons rp rest ih =>
    obtain ⟨r, p⟩ := rp
    by_cases h1 : spidAt p.X p.Y = 0
    · simp only [searchLoop, if_pos h1] at h
      obtain ⟨hmem, hres⟩ := ih h
      rw [candidates_cons_zero spidAt table slice exclude h1]
      exact ⟨hmem, hres⟩
    · by_cases h2 : lookupZero table ⟨slice, spidAt p.X p.Y⟩ ∈ exclude
      · simp only [searchLoop, if_neg h1, if_pos h2] at h
        obtain ⟨hmem, hres⟩ := ih h
        rw [candidates_cons_excluded spidAt table slice exclude h1 h2]
        exact ⟨hmem, hres⟩
      · by_cases h3 : lookupZero table ⟨slice, spidAt p.X p.Y⟩ ∈ avoid
        · simp only [searchLoop, if_neg h1, if_neg h2, if_pos h3] at h
          obtain ⟨hmem, hres⟩ := ih h
          rw [candidates_cons_cand spidAt table slice exclude h1 h2]
          exact ⟨List.mem_cons_of_mem _ hmem, hres⟩
        · simp only [searchLoop, if_neg h1, if_neg h2, if_neg h3, Sum.inr.injEq] at h
          rw [candidates_cons_cand spidAt table slice exclude h1 h2, ← h]
          exact ⟨List.mem_cons_self _ _, h3, rfl⟩


lemma nfold_nextBest_nil (st : NState) {pairs : List (Int × pixelPt)}
    (h : candidates spidAt table slice exclude pairs = []) :
    (nfold spidAt table slice exclude pairs st).nextBestSpid = st.nextBestSpid ∧
      (nfold spidAt table slice exclude pairs st).nextBestRadius = st.nextBestRadius := by
  induction pairs generalizing st with
  | nil => exact ⟨rfl, rfl⟩
  | cons rp rest ih =>
    obtain ⟨r, p⟩ := rp
    by_cases h1 : spidAt p.X p.Y = 0
    · rw [candidates_cons_zero spidAt table slice exclude h1] at h
      have := ih st h
      simpa [nfold, nstep, h1] using this
    · by_cases h2 : lookupZero table ⟨slice, spidAt p.X p.Y⟩ ∈ exclude
      · rw [candidates_cons_excluded spidAt table slice exclude h1 h2] at h
        have := ih ⟨spidAt p.X p.Y, st.nextBestSpid, st.nextBestRadius⟩ h
        simpa [nfold, nstep, h1, h2] using this
      · rw [candidates_cons_cand spidAt table slice exclude h1 h2] at h
        cases h

lemma nfold_nextBest_last (st : NState) {pairs : List (Int × pixelPt)}
    {c : Int × Nat × BodyId}
    (h : (candidates spidAt table slice exclude pairs).getLast? = some c) :
    (nfold spidAt table slice exclude pairs st).nextBestSpid = c.2.1 ∧
      (nfold spidAt table slice exclude pairs st).nextBestRadius = c.1 := by
  induction pairs generalizing st with
  | nil => simp [candidates] at h
  | cons rp rest ih =>
    obtain ⟨r, p⟩ := rp
    by_cases h1 : spidAt p.X p.Y = 0
    · rw [candidates_cons_zero spidAt table slice exclude h1] at h
      have := ih st h
      simpa [nfold, nstep, h1] using this
    · by_cases h2 : lookupZero table ⟨slice, spidAt p.X p.Y⟩ ∈ exclude
      · rw [candidates_cons_excluded spidAt table slice exclude h1 h2] at h
        have := ih ⟨spidAt p.X p.Y, st.nextBestSpid, st.nextBestRadius⟩ h
        simpa [nfold, nstep, h1, h2] using this
      · rw [candidates_cons_cand spidAt table slice exclude h1 h2] at h
        rcases hrest : candidates spidAt table slice exclude rest with _ | ⟨c2, cs⟩
        · rw [hrest] at h
          simp only [List.getLast?_singleton, Option.some.injEq] at h
          have := nfold_nextBest_nil spidAt table slice exclude
            ⟨spidAt p.X p.Y, spidAt p.X p.Y, r⟩ hrest
          rw [← h]
          simpa [nfold, nstep, h1, h2] using this
        · rw [hrest, List.getLast?_cons_cons] at h
          rw [← hrest] at h
          have := ih ⟨spidAt p.X p.Y, spidAt p.X p.Y, r⟩ h
          simpa [nfold, nstep, h1, h2] using this

lemma nfold_label_pres (st : NState) (pairs : List (Int × pixelPt))
    (h : st.label ≠ 0) :
    (nfold spidAt table slice exclude pairs st).label ≠ 0 := by
  induction pairs generalizing st with
  | nil => exact h
  | cons rp rest ih =>
    obtain ⟨r, p⟩ := rp
    by_cases h1 : spidAt p.X p.Y = 0
    · have := ih st h
      simpa [nfold, nstep, h1] using this
    · by_cases h2 : lookupZero table ⟨slice, spidAt p.X p.Y⟩ ∈ exclude
      · have := ih ⟨spidAt p.X p.Y, st.nextBestSpid, st.nextBestRadius⟩ h1
        simpa [nfold, nstep, h1, h2] using this
      · have := ih ⟨spidAt p.X p.Y, spidAt p.X p.Y, r⟩ h1
        simpa [nfold, nstep, h1, h2] using this

lemma nfold_label_ne (st : NState) {pairs : List (Int × pixelPt)}
    {rp : Int × pixelPt} (hrp : rp ∈ pairs) (hs : spidAt rp.2.X rp.2.Y ≠ 0) :
    (nfold spidAt table slice exclude pairs st).label ≠ 0 := by
  induction pairs generalizing st with
  | nil => cases hrp
  | cons rp2 rest ih =>
    obtain ⟨r, p⟩ := rp2
    rcases List.mem_cons.mp hrp with he | hm
    · subst he
      by_cases h2 : lookupZero table ⟨slice, spidAt p.X p.Y⟩ ∈ exclude
      · have := nfold_label_pres spidAt table slice exclude
          ⟨spidAt p.X p.Y, st.nextBestSpid, st.nextBestRadius⟩ rest hs
        simpa [nfold, nstep, hs, h2] using this
      · have := nfold_label_pres spidAt table slice exclude
          ⟨spidAt p.X p.Y, spidAt p.X p.Y, r⟩ rest hs
        simpa [nfold, nstep, hs, h2] using this
    · by_cases h1 : spidAt p.X p.Y = 0
      · have := ih st hm
        simpa [nfold, nstep, h1] using this
      · by_cases h2 : lookupZero table ⟨slice, spidAt p.X p.Y⟩ ∈ exclude
        · have := ih ⟨spidAt p.X p.Y, st.nextBestSpid, st.nextBestRadius⟩ hm
          simpa [nfold, nstep, h1, h2] using this
        · have := ih ⟨spidAt p.X p.Y, spidAt p.X p.Y, r⟩ hm
          simpa [nfold, nstep, h1, h2] using this

end SearchLemmas

/-- C1 amended: with no label-0 superpixel key mapped in the table and a
center pixel whose own label is 0: (1) the search never returns a nonzero
body that is in excludeBodies; (2) if every nonzero-labeled pixel scanned
within the radius cap resolves to an excluded body (in particular if no
nonzero-labeled pixel exists), it returns body 0 with the radius cap 6;
(3) with excludeBodies containing 7 and every pixel scanned at radius 0
or 1 either zero-labeled or resolving to body 7, the returned body is
not 7 and the returned radius is at least 2. -/
theorem C1_nearest_body_exclusion (spidAt : Int → Int → Nat)
    (table : List (Superpixel × BodyId)) (slice : Nat) (tileX tileY : Int)
    (exclude avoid : List BodyId)
    (h0 : ∀ q ∈ table, q.1.Label ≠ 0)
    (hcenter : spidAt tileX tileY = 0) :
    ((GetNearestBodyOfLocation spidAt table slice tileX tileY exclude avoid).bodyId ≠ 0 →
      (GetNearestBodyOfLocation spidAt table slice tileX tileY exclude avoid).bodyId
        ∉ exclude) ∧
    ((∀ rp ∈ scanPairs tileX tileY, spidAt rp.2.X rp.2.Y = 0 ∨
        lookupZero table ⟨slice, spidAt rp.2.X rp.2.Y⟩ ∈ exclude) →
      GetNearestBodyOfLocation spidAt table slice tileX tileY exclude avoid
        = ⟨0, ⟨slice, 0⟩, 6⟩) ∧
    (7 ∈ exclude →
      (∀ rp ∈ scanPairs tileX tileY, rp.1 ≤ 1 → spidAt rp.2.X rp.2.Y = 0 ∨
        lookupZero table ⟨slice, spidAt rp.2.X rp.2.Y⟩ = 7) →
      (GetNearestBodyOfLocation spidAt table slice tileX tileY exclude avoid).bodyId ≠ 7 ∧
        2 ≤ (GetNearestBodyOfLocation spidAt table slice tileX tileY exclude avoid).radius) := by
  rcases hsl : searchLoop spidAt table slice exclude avoid (scanPairs tileX tileY) initNState
    with st | r0
  · obtain ⟨hst, hav⟩ := searchLoop_inl spidAt table slice exclude avoid hsl
    refine ⟨?_, ?_, ?_⟩
    · intro hnz
      by_cases hl : st.label = 0
      · simp [GetNearestBodyOfLocation, hsl, hl] at hnz
      · simp only [GetNearestBodyOfLocation, hsl, if_neg hl] at hnz ⊢
        rcases hc : (candidates spidAt table slice exclude (scanPairs tileX tileY)).getLast?
          with _ | c
        · have hnil := List.getLast?_eq_none_iff.mp hc
          have hnb := nfold_nextBest_nil spidAt table slice exclude initNState hnil
          rw [hst] at hnz
          rw [hnb.1] at hnz
          exact absurd (lookupZero_label_zero table slice h0) hnz
        · have hnb := nfold_nextBest_last spidAt table slice exclude initNState hc
          have hcm := mem_of_getLast?_eq hc
          obtain ⟨rp, hrp, hs1, hs2, hceq⟩ :=
            mem_candidates spidAt table slice exclude hcm
          rw [hst, hnb.1, hceq]
          simpa using hs2
    · intro hall
      have hnil : candidates spidAt table slice exclude (scanPairs tileX tileY) = [] := by
        simp only [candidates, List.filterMap_eq_nil_iff]
        intro rp hrp
        rcases hall rp hrp with hz | he
        · simp [hz]
        · simp [he]
      have hnb := nfold_nextBest_nil spidAt table slice exclude initNState hnil
      by_cases hl : st.label = 0
      · simp [GetNearestBodyOfLocation, hsl, hl]
      · simp only [GetNearestBodyOfLocation, hsl, if_neg hl]
        rw [hst, hnb.1, hnb.2]
        simp [initNState, lookupZero_label_zero table slice h0]
    · intro h7 hlow
      have hradius : ∀ c ∈ candidates spidAt table slice exclude (scanPairs tileX tileY),
          lookupZero table ⟨slice, c.2.1⟩ = c.2.2 ∧ c.2.2 ∉ exclude ∧ 2 ≤ c.1 := by
        intro c hcmem
        obtain ⟨rp, hrp, hs1, hs2, hceq⟩ := mem_candidates spidAt table slice exclude hcmem
        subst hceq
        refine ⟨rfl, hs2, ?_⟩
        by_contra hle
        push_neg at hle
        have h2 : rp.1 ≤ 1 := by omega
        rcases hlow rp hrp h2 with hz | hb
        · exact hs1 hz
        · exact hs2 (hb ▸ h7)
      by_cases hl : st.label = 0
      · simp [GetNearestBodyOfLocation, hsl, hl]
      · simp only [GetNearestBodyOfLocation, hsl, if_neg hl]
        rcases hc : (candidates spidAt table slice exclude (scanPairs tileX tileY)).getLast?
          with _ | c
        · have hnil := List.getLast?_eq_none_iff.mp hc
          have hnb := nfold_nextBest_nil spidAt table slice exclude initNState hnil
          have e1 : initNState.nextBestSpid = 0 := rfl
          rw [hst, hnb.1, hnb.2, e1, lookupZero_label_zero table slice h0]
          exact ⟨by decide, by decide⟩
        · have hnb := nfold_nextBest_last spidAt table slice exclude initNState hc
          have hcm := mem_of_getLast?_eq hc
          obtain ⟨hlook, hnot, hr2⟩ := hradius c hcm
          rw [hst, hnb.1, hnb.2, hlook]
          refine ⟨?_, hr2⟩
          intro hbe
          exact hnot (hbe ▸ h7)
  · obtain ⟨hmem, hnav, hsli⟩ := searchLoop_inr spidAt table slice exclude avoid hsl
    obtain ⟨rp, hrp, hs1, hs2, hceq⟩ := mem_candidates spidAt table slice exclude hmem
    have hres : GetNearestBodyOfLocation spidAt table slice tileX tileY exclude avoid = r0 := by
      simp [GetNearestBodyOfLocation, hsl]
    refine ⟨?_, ?_, ?_⟩
    · intro _
      rw [hres]
      have : r0.bodyId = lookupZero table ⟨slice, spidAt rp.2.X rp.2.Y⟩ := by
        have := congrArg (fun t => t.2.2) hceq
        simpa using this
      rw [this]
      exact hs2
    · intro hall
      rcases hall rp hrp with hz | he
      · exact absurd hz hs1
      · exact absurd he hs2
    · intro h7 hlow
      have hb : r0.bodyId = lookupZero table ⟨slice, spidAt rp.2.X rp.2.Y⟩ := by
        have := congrArg (fun t => t.2.2) hceq
        simpa using this
      have hr : r0.radius = rp.1 := by
        have := congrArg (fun t => t.1) hceq
        simpa using this
      rw [hres]
      constructor
      · rw [hb]
        intro hbe
        exact hs2 (hbe ▸ h7)
      · rw [hr]
        by_contra hle
        push_neg at hle
        have h2 : rp.1 ≤ 1 := by omega
        rcases hlow rp hrp h2 with hz | hbb
        · exact hs1 hz
        · exact hs2 (hbb ▸ h7)

/-- C2 amended: when every non-excluded candidate met during the ring scan
is in avoidBodies, the function returns the candidate found last during the
scan (the fallback variables are overwritten on every non-excluded
candidate), not the smallest-radius one. -/
theorem C2_avoid_fallback_is_last (spidAt : Int → Int → Nat)
    (table : List (Superpixel × BodyId)) (slice : Nat) (tileX tileY : Int)
    (exclude avoid : List BodyId) (c : Int × Nat × BodyId)
    (hav : ∀ c' ∈ candidates spidAt table slice exclude (scanPairs tileX tileY),
      c'.2.2 ∈ avoid)
    (hlast : (candidates spidAt table slice exclude (scanPairs tileX tileY)).getLast?
      = some c) :
    GetNearestBodyOfLocation spidAt table slice tileX tileY exclude avoid
      = ⟨c.2.2, ⟨slice, c.2.1⟩, c.1⟩ := by
  rcases hsl : searchLoop spidAt table slice exclude avoid (scanPairs tileX tileY) initNState
    with st | r0
  · obtain ⟨hst, _⟩ := searchLoop_inl spidAt table slice exclude avoid hsl
    have hcm := mem_of_getLast?_eq hlast
    obtain ⟨rp, hrp, hs1, hs2, hceq⟩ := mem_candidates spidAt table slice exclude hcm
    have hlne : st.label ≠ 0 := by
      rw [hst]
      exact nfold_label_ne spidAt table slice exclude initNState hrp hs1
    simp only [GetNearestBodyOfLocation, hsl, if_neg hlne]
    have hnb := nfold_nextBest_last spidAt table slice exclude initNState hlast
    rw [hst, hnb.1, hnb.2]
    subst hceq
    rfl
  · obtain ⟨hmem, hnav, _⟩ := searchLoop_inr spidAt table slice exclude avoid hsl
    exact absurd (hav _ hmem) hnav

set_option maxRecDepth 1000000 in
/-- C1 counterexample: with an empty remap table (so no label-0 key is
mapped and no superpixel resolves to a nonzero body), a zero-labeled
center at tile coordinates (100,100) and a single nonzero label 5 at
(100,99), no non-excluded nonzero-labeled pixel resolves to a body, yet
the search returns at radius 1 (body 0, superpixel label 5) instead of
reaching the radius cap 6 as the claim requires. -/
theorem C1_counterexample :
    (∀ q ∈ ([] : List (Superpixel × BodyId)), q.1.Label ≠ 0) ∧
    spidC1cx 100 100 = 0 ∧
    (∀ rp ∈ scanPairs 100 100, spidC1cx rp.2.X rp.2.Y = 0 ∨
      lookupZero ([] : List (Superpixel × BodyId))
        (Superpixel.mk 0 (spidC1cx rp.2.X rp.2.Y)) = 0) ∧
    GetNearestBodyOfLocation spidC1cx [] 0 100 100 [] [] = ⟨0, ⟨0, 5⟩, 1⟩ ∧
    (GetNearestBodyOfLocation spidC1cx [] 0 100 100 [] []).radius ≠ 6 := by
  decide

set_option maxRecDepth 1000000 in
/-- Witness for the amended C1 theorem on a concrete all-zero tile. -/
theorem C1_nearest_body_exclusion_witness :
    (∀ q ∈ ([] : List (Superpixel × BodyId)), q.1.Label ≠ 0) ∧
    (fun (_ _ : Int) => (0 : Nat)) 100 100 = 0 ∧
    (((GetNearestBodyOfLocation (fun _ _ => 0) [] 0 100 100 [7] []).bodyId ≠ 0 →
        (GetNearestBodyOfLocation (fun _ _ => 0) [] 0 100 100 [7] []).bodyId ∉ [(7 : BodyId)]) ∧
      ((∀ rp ∈ scanPairs 100 100, (fun (_ _ : Int) => (0 : Nat)) rp.2.X rp.2.Y = 0 ∨
          lookupZero ([] : List (Superpixel × BodyId))
            ⟨0, (fun (_ _ : Int) => (0 : Nat)) rp.2.X rp.2.Y⟩ ∈ [(7 : BodyId)]) →
        GetNearestBodyOfLocation (fun _ _ => 0) [] 0 100 100 [7] [] = ⟨0, ⟨0, 0⟩, 6⟩) ∧
      (7 ∈ [(7 : BodyId)] →
        (∀ rp ∈ scanPairs 100 100, rp.1 ≤ 1 → (fun (_ _ : Int) => (0 : Nat)) rp.2.X rp.2.Y = 0 ∨
          lookupZero ([] : List (Superpixel × BodyId))
            ⟨0, (fun (_ _ : Int) => (0 : Nat)) rp.2.X rp.2.Y⟩ = 7) →
        (GetNearestBodyOfLocation (fun _ _ => 0) [] 0 100 100 [7] []).bodyId ≠ 7 ∧
          2 ≤ (GetNearestBodyOfLocation (fun _ _ => 0) [] 0 100 100 [7] []).radius)) :=
  ⟨by decide, by decide,
    C1_nearest_body_exclusion (fun _ _ => 0) [] 0 100 100 [7] [] (by decide) (by decide)⟩

set_option maxRecDepth 1000000 in
/-- C2 counterexample: the scan meets an avoided candidate (radius 1,
label 10, body 3) before a second avoided candidate (radius 2, label 20,
body 4); every non-excluded candidate is avoided, yet the function
returns the radius-2 candidate (body 4), not the smallest-radius one
(body 3 at radius 1) as the claim requires. -/
theorem C2_counterexample :
    candidates spidC2cx [(⟨0, 10⟩, 3), (⟨0, 20⟩, 4)] 0 [] (scanPairs 100 100)
      = [(1, 10, 3), (2, 20, 4), (2, 20, 4)] ∧
    (∀ c ∈ candidates spidC2cx [(⟨0, 10⟩, 3), (⟨0, 20⟩, 4)] 0 [] (scanPairs 100 100),
      c.2.2 ∈ [(3 : BodyId), 4]) ∧
    GetNearestBodyOfLocation spidC2cx [(⟨0, 10⟩, 3), (⟨0, 20⟩, 4)] 0 100 100 [] [3, 4]
      = ⟨4, ⟨0, 20⟩, 2⟩ ∧
    GetNearestBodyOfLocation spidC2cx [(⟨0, 10⟩, 3), (⟨0, 20⟩, 4)] 0 100 100 [] [3, 4]
      ≠ ⟨3, ⟨0, 10⟩, 1⟩ := by
  decide

set_option maxRecDepth 1000000 in
/-- Witness for the amended C2 theorem on the two-avoided-candidates tile. -/
theorem C2_avoid_fallback_is_last_witness :
    (∀ c' ∈ candidates spidC2cx [(⟨0, 10⟩, 3), (⟨0, 20⟩, 4)] 0 [] (scanPairs 100 100),
      c'.2.2 ∈ [(3 : BodyId), 4]) ∧
    (candidates spidC2cx [(⟨0, 10⟩, 3), (⟨0, 20⟩, 4)] 0 [] (scanPairs 100 100)).getLast?
      = some (2, 20, 4) ∧
    GetNearestBodyOfLocation spidC2cx [(⟨0, 10⟩, 3), (⟨0, 20⟩, 4)] 0 100 100 [] [3, 4]
      = ⟨4, ⟨0, 20⟩, 2⟩ :=
  ⟨by decide, by decide,
    C2_avoid_fallback_is_last spidC2cx [(⟨0, 10⟩, 3), (⟨0, 20⟩, 4)] 0 100 100 [] [3, 4]
      (2, 20, 4) (by decide) (by decide)⟩

lemma lookupKey_nil_iff {α β : Type} [DecidableEq α] {m : List (α × β)} {k : α} :
    lookupKey m k = none ↔ k ∉ m.map Prod.fst := by
  induction m with
  | nil => simp [lookupKey]
  | cons e rest ih =>
    by_cases he : e.1 = k
    · simp [lookupKey, he]
    · simp [lookupKey, he, ih, Ne.symm he]

lemma lookupKey_incrOverlap_self (ov : List (BodyId × Nat)) (b : BodyId) :
    lookupKey (incrOverlap ov b) b = some ((lookupKey ov b).getD 0 + 1) := by
  induction ov with
  | nil => simp [incrOverlap, lookupKey]
  | cons e rest ih =>
    obtain ⟨k, c⟩ := e
    by_cases hk : k = b
    · simp [incrOverlap, lookupKey, hk]
    · simp [incrOverlap, lookupKey, hk, ih]

lemma lookupKey_incrOverlap_other (ov : List (BodyId × Nat)) (b k : BodyId) (hk : k ≠ b) :
    lookupKey (incrOverlap ov b) k = lookupKey ov k := by
  induction ov with
  | nil => simp [incrOverlap, lookupKey, Ne.symm hk]
  | cons e rest ih =>
    obtain ⟨k2, c⟩ := e
    by_cases h2 : k2 = b
    · subst h2
      simp [incrOverlap, lookupKey, Ne.symm hk]
    · by_cases h3 : k2 = k
      · simp [incrOverlap, lookupKey, h2, h3, hk]
      · simp [incrOverlap, lookupKey, h2, h3, ih]

lemma incrOverlap_keys {ov : List (BodyId × Nat)} {b k : BodyId}
    (h : k ∈ (incrOverlap ov b).map Prod.fst) : k ∈ ov.map Prod.fst ∨ k = b := by
  induction ov with
  | nil => simpa [incrOverlap] using h
  | cons e rest ih =>
    obtain ⟨k2, c⟩ := e
    by_cases h2 : k2 = b
    · rw [show incrOverlap ((k2, c) :: rest) b = (k2, c + 1) :: rest by
        simp [incrOverlap, h2]] at h
      rw [List.map_cons, List.mem_cons] at h
      rcases h with h | h
      · exact Or.inl (by rw [List.map_cons, List.mem_cons]; exact Or.inl h)
      · exact Or.inl (by rw [List.map_cons, List.mem_cons]; exact Or.inr h)
    · rw [show incrOverlap ((k2, c) :: rest) b = (k2, c) :: incrOverlap rest b by
        simp [incrOverlap, h2]] at h
      rw [List.map_cons, List.mem_cons] at h
      rcases h with h | h
      · exact Or.inl (by rw [List.map_cons, List.mem_cons]; exact Or.inl h)
      · rcases ih h with h3 | h3
        · exact Or.inl (by rw [List.map_cons, List.mem_cons]; exact Or.inr h3)
        · exact Or.inr h3

lemma incrOverlap_keys_nodup {ov : List (BodyId × Nat)} {b : BodyId}
    (h : (ov.map Prod.fst).Nodup) : ((incrOverlap ov b).map Prod.fst).Nodup := by
  induction ov with
  | nil => simp [incrOverlap]
  | cons e rest ih =>
    obtain ⟨k2, c⟩ := e
    rw [List.map_cons, List.nodup_cons] at h
    by_cases h2 : k2 = b
    · rw [show incrOverlap ((k2, c) :: rest) b = (k2, c + 1) :: rest by
        simp [incrOverlap, h2]]
      rw [List.map_cons, List.nodup_cons]
      exact h
    · rw [show incrOverlap ((k2, c) :: rest) b = (k2, c) :: incrOverlap rest b by
        simp [incrOverlap, h2]]
      rw [List.map_cons, List.nodup_cons]
      refine ⟨?_, ih h.2⟩
      intro hmem
      rcases incrOverlap_keys hmem with h3 | h3
      · exact h.1 h3
      · exact h2 h3

lemma incrOverlap_ne_nil (ov : List (BodyId × Nat)) (b : BodyId) :
    incrOverlap ov b ≠ [] := by
  cases ov with
  | nil => simp [incrOverlap]
  | cons e rest =>
    obtain ⟨k, c⟩ := e
    by_cases hk : k = b <;> simp [incrOverlap, hk]

lemma tallyFlat_count (sp2 : List (Superpixel × BodyId)) (sps : List Superpixel)
    (ov : List (BodyId × Nat)) (b : BodyId) :
    (lookupKey (tallyFlat sp2 ov sps) b).getD 0
      = (lookupKey ov b).getD 0
          + sps.countP (fun sp => decide (lookupKey sp2 sp = some b)) := by
  induction sps generalizing ov with
  | nil => simp [tallyFlat]
  | cons sp rest ih =>
    rcases hsp : lookupKey sp2 sp with _ | b2
    · rw [show tallyFlat sp2 ov (sp :: rest) = tallyFlat sp2 ov rest by
        simp [tallyFlat, List.foldl_cons, hsp]]
      rw [ih]
      simp [List.countP_cons, hsp]
    · rw [show tallyFlat sp2 ov (sp :: rest) = tallyFlat sp2 (incrOverlap ov b2) rest by
        simp [tallyFlat, List.foldl_cons, hsp]]
      rw [ih]
      by_cases hb : b2 = b
      · subst hb
        rw [lookupKey_incrOverlap_self]
        simp [List.countP_cons, hsp]
        omega
      · rw [lookupKey_incrOverlap_other ov b2 b (Ne.symm hb)]
        simp [List.countP_cons, hsp, hb]

lemma tallyFlat_keys (sp2 : List (Superpixel × BodyId)) (sps : List Superpixel)
    (ov : List (BodyId × Nat)) (k : BodyId)
    (h : k ∈ (tallyFlat sp2 ov sps).map Prod.fst) :
    k ∈ ov.map Prod.fst ∨ ∃ sp ∈ sps, lookupKey sp2 sp = some k := by
  induction sps generalizing ov with
  | nil => exact Or.inl (by simpa [tallyFlat] using h)
  | cons sp rest ih =>
    rcases hsp : lookupKey sp2 sp with _ | b2
    · rw [show tallyFlat sp2 ov (sp :: rest) = tallyFlat sp2 ov rest by
        simp [tallyFlat, List.foldl_cons, hsp]] at h
      rcases ih ov h with h3 | ⟨sp3, hm, hl⟩
      · exact Or.inl h3
      · exact Or.inr ⟨sp3, List.mem_cons_of_mem _ hm, hl⟩
    · rw [show tallyFlat sp2 ov (sp :: rest) = tallyFlat sp2 (incrOverlap ov b2) rest by
        simp [tallyFlat, List.foldl_cons, hsp]] at h
      rcases ih (incrOverlap ov b2) h with h3 | ⟨sp3, hm, hl⟩
      · rcases incrOverlap_keys h3 with h4 | h4
        · exact Or.inl h4
        · exact Or.inr ⟨sp, List.mem_cons_self _ _, by rw [hsp, h4]⟩
      · exact Or.inr ⟨sp3, List.mem_cons_of_mem _ hm, hl⟩

lemma tallyFlat_keys_nodup (sp2 : List (Superpixel × BodyId)) (sps : List Superpixel)
    (ov : List (BodyId × Nat)) (h : (ov.map Prod.fst).Nodup) :
    ((tallyFlat sp2 ov sps).map Prod.fst).Nodup := by
  induction sps generalizing ov with
  | nil => simpa [tallyFlat] using h
  | cons sp rest ih =>
    rcases hsp : lookupKey sp2 sp with _ | b2
    · rw [show tallyFlat sp2 ov (sp :: rest) = tallyFlat sp2 ov rest by
        simp [tallyFlat, List.foldl_cons, hsp]]
      exact ih ov h
    · rw [show tallyFlat sp2 ov (sp :: rest) = tallyFlat sp2 (incrOverlap ov b2) rest by
        simp [tallyFlat, List.foldl_cons, hsp]]
      exact ih _ (incrOverlap_keys_nodup h)

lemma tallyFlat_ne_nil (sp2 : List (Superpixel × BodyId)) (sps : List Superpixel)
    (ov : List (BodyId × Nat)) (h : ov ≠ []) : tallyFlat sp2 ov sps ≠ [] := by
  induction sps generalizing ov with
  | nil => simpa [tallyFlat] using h
  | cons sp rest ih =>
    rcases hsp : lookupKey sp2 sp with _ | b2
    · rw [show tallyFlat sp2 ov (sp :: rest) = tallyFlat sp2 ov rest by
        simp [tallyFlat, List.foldl_cons, hsp]]
      exact ih ov h
    · rw [show tallyFlat sp2 ov (sp :: rest) = tallyFlat sp2 (incrOverlap ov b2) rest by
        simp [tallyFlat, List.foldl_cons, hsp]]
      exact ih _ (incrOverlap_ne_nil ov b2)

lemma tallyFlat_all_missing (sp2 : List (Superpixel × BodyId)) (sps : List Superpixel)
    (ov : List (BodyId × Nat)) (h : ∀ sp ∈ sps, lookupKey sp2 sp = none) :
    tallyFlat sp2 ov sps = ov := by
  induction sps generalizing ov with
  | nil => simp [tallyFlat]
  | cons sp rest ih =>
    have hsp := h sp (List.mem_cons_self _ _)
    rw [show tallyFlat sp2 ov (sp :: rest) = tallyFlat sp2 ov rest by
      simp [tallyFlat, List.foldl_cons, hsp]]
    exact ih ov (fun sp3 hm => h sp3 (List.mem_cons_of_mem _ hm))

lemma getD_eq_some {m : List (BodyId × Nat)} {k : BodyId} {n : Nat}
    (h : (lookupKey m k).getD 0 = n) (hn : n ≠ 0) : lookupKey m k = some n := by
  rcases hl : lookupKey m k with _ | v
  · rw [hl] at h
    simp at h
    exact absurd h.symm hn
  · rw [hl] at h
    simp at h
    rw [h]

lemma two_entry_shape {l : List (BodyId × Nat)} {A B : BodyId}
    (hnd : (l.map Prod.fst).Nodup) (hsub : ∀ e ∈ l, e.1 = A ∨ e.1 = B)
    (hAB : A ≠ B) (hA : lookupKey l A = some 8) (hB : lookupKey l B = some 2) :
    l = [(A, 8), (B, 2)] ∨ l = [(B, 2), (A, 8)] := by
  match l with
  | [] => simp [lookupKey] at hA
  | [e] =>
    rcases hsub e (List.mem_cons_self _ _) with he | he
    · rw [show lookupKey [e] B = none by simp [lookupKey, he, hAB]] at hB
      cases hB
    · rw [show lookupKey [e] A = none by
        simp only [lookupKey]
        rw [if_neg (by rw [he]; exact Ne.symm hAB)]] at hA
      cases hA
  | e :: f :: rest =>
    have hef : e.1 ≠ f.1 := by
      rw [List.map_cons, List.map_cons, List.nodup_cons] at hnd
      intro hc
      exact hnd.1 (by rw [hc]; exact List.mem_cons_self _ _)
    have hrest : rest = [] := by
      rcases rest with _ | ⟨g, rest2⟩
      · rfl
      · exfalso
        have hg := hsub g (by simp)
        have he := hsub e (by simp)
        have hf := hsub f (by simp)
        rw [List.map_cons, List.map_cons, List.map_cons, List.nodup_cons,
          List.nodup_cons] at hnd
        have h1 : e.1 ≠ g.1 := fun hc => hnd.1 (by rw [hc]; simp)
        have h2 : f.1 ≠ g.1 := fun hc => hnd.2.1 (by rw [hc]; simp)
        rcases he with he | he <;> rcases hf with hf | hf <;> rcases hg with hg | hg <;>
          first
          | exact hef (he.trans hf.symm)
          | exact h1 (he.trans hg.symm)
          | exact h2 (hf.trans hg.symm)
    subst hrest
    rcases hsub e (by simp) with he | he
    · have hf : f.1 = B := by
        rcases hsub f (by simp) with hf | hf
        · exact absurd (by rw [he, hf]) hef
        · exact hf
      left
      have hv1 : e.2 = 8 := by
        rw [show lookupKey [e, f] A = some e.2 by simp [lookupKey, he]] at hA
        exact (Option.some.injEq _ _ ▸ hA :)
      have hv2 : f.2 = 2 := by
        rw [show lookupKey [e, f] B = some f.2 by
          simp only [lookupKey]
          rw [if_neg (by rw [he]; exact hAB), if_pos hf]] at hB
        exact (Option.some.injEq _ _ ▸ hB :)
      obtain ⟨e1, e2⟩ := e
      obtain ⟨f1, f2⟩ := f
      simp only at he hf hv1 hv2
      rw [he, hf, hv1, hv2]
    · have hf : f.1 = A := by
        rcases hsub f (by simp) with hf | hf
        · exact hf
        · exact absurd (by rw [he, hf]) hef
      right
      have hv1 : e.2 = 2 := by
        rw [show lookupKey [e, f] B = some e.2 by simp [lookupKey, he]] at hB
        exact (Option.some.injEq _ _ ▸ hB :)
      have hv2 : f.2 = 8 := by
        rw [show lookupKey [e, f] A = some f.2 by
          simp only [lookupKey]
          rw [if_neg (by rw [he]; exact Ne.symm hAB), if_pos hf]] at hA
        exact (Option.some.injEq _ _ ▸ hA :)
      obtain ⟨e1, e2⟩ := e
      obtain ⟨f1, f2⟩ := f
      simp only at he hf hv1 hv2
      rw [he, hf, hv1, hv2]

lemma bestIn_eight_two {l : List (BodyId × Nat)} {A B : BodyId}
    (hnd : (l.map Prod.fst).Nodup) (hsub : ∀ e ∈ l, e.1 = A ∨ e.1 = B)
    (hAB : A ≠ B) (hA : lookupKey l A = some 8) (hB : lookupKey l B = some 2) :
    bestIn l = (8, A) := by
  rcases two_entry_shape hnd hsub hAB hA hB with h | h <;> rw [h] <;> simp [bestIn]

lemma lookupKey_incrNested_self (om : List (BodyId × List (BodyId × Nat))) (b b2 : BodyId) :
    lookupKey (incrNested om b b2) b
      = some (incrOverlap ((lookupKey om b).getD []) b2) := by
  induction om with
  | nil => simp [incrNested, lookupKey]
  | cons e rest ih =>
    obtain ⟨k, ov⟩ := e
    by_cases hk : k = b
    · simp [incrNested, lookupKey, hk]
    · simp [incrNested, lookupKey, hk, ih]

lemma lookupKey_incrNested_other (om : List (BodyId × List (BodyId × Nat)))
    (b b2 k : BodyId) (hk : k ≠ b) :
    lookupKey (incrNested om b b2) k = lookupKey om k := by
  induction om with
  | nil => simp [incrNested, lookupKey, Ne.symm hk]
  | cons e rest ih =>
    obtain ⟨k2, ov⟩ := e
    by_cases h2 : k2 = b
    · subst h2
      simp [incrNested, lookupKey, Ne.symm hk]
    · by_cases h3 : k2 = k
      · simp [incrNested, lookupKey, h2, h3, hk]
      · simp [incrNested, lookupKey, h2, h3, ih]

lemma lookupKey_tallyBody_other (sp2 : List (Superpixel × BodyId))
    (sps : List Superpixel) (om : List (BodyId × List (BodyId × Nat)))
    (b k : BodyId) (hk : k ≠ b) :
    lookupKey (tallyBody sp2 om b sps) k = lookupKey om k := by
  induction sps generalizing om with
  | nil => simp [tallyBody]
  | cons sp rest ih =>
    rcases hsp : lookupKey sp2 sp with _ | b2
    · rw [show tallyBody sp2 om b (sp :: rest) = tallyBody sp2 om b rest by
        simp [tallyBody, List.foldl_cons, hsp]]
      exact ih om
    · rw [show tallyBody sp2 om b (sp :: rest) = tallyBody sp2 (incrNested om b b2) b rest by
        simp [tallyBody, List.foldl_cons, hsp]]
      rw [ih _]
      exact lookupKey_incrNested_other om b b2 k hk

lemma lookupKey_tallyBody_some (sp2 : List (Superpixel × BodyId))
    (sps : List Superpixel) (om : List (BodyId × List (BodyId × Nat)))
    (b : BodyId) (ov : List (BodyId × Nat)) (h : lookupKey om b = some ov) :
    lookupKey (tallyBody sp2 om b sps) b = some (tallyFlat sp2 ov sps) := by
  induction sps generalizing om ov with
  | nil => simpa [tallyBody, tallyFlat] using h
  | cons sp rest ih =>
    rcases hsp : lookupKey sp2 sp with _ | b2
    · rw [show tallyBody sp2 om b (sp :: rest) = tallyBody sp2 om b rest by
        simp [tallyBody, List.foldl_cons, hsp]]
      rw [show tallyFlat sp2 ov (sp :: rest) = tallyFlat sp2 ov rest by
        simp [tallyFlat, List.foldl_cons, hsp]]
      exact ih om ov h
    · rw [show tallyBody sp2 om b (sp :: rest) = tallyBody sp2 (incrNested om b b2) b rest by
        simp [tallyBody, List.foldl_cons, hsp]]
      rw [show tallyFlat sp2 ov (sp :: rest) = tallyFlat sp2 (incrOverlap ov b2) rest by
        simp [tallyFlat, List.foldl_cons, hsp]]
      refine ih _ _ ?_
      rw [lookupKey_incrNested_self, h]
      rfl

lemma lookupKey_tallyBody_none (sp2 : List (Superpixel × BodyId))
    (sps : List Superpixel) (om : List (BodyId × List (BodyId × Nat)))
    (b : BodyId) (h : lookupKey om b = none) :
    lookupKey (tallyBody sp2 om b sps) b
      = if tallyFlat sp2 [] sps = [] then none else some (tallyFlat sp2 [] sps) := by
  induction sps generalizing om with
  | nil => simpa [tallyBody, tallyFlat] using h
  | cons sp rest ih =>
    rcases hsp : lookupKey sp2 sp with _ | b2
    · rw [show tallyBody sp2 om b (sp :: rest) = tallyBody sp2 om b rest by
        simp [tallyBody, List.foldl_cons, hsp]]
      rw [show tallyFlat sp2 ([] : List (BodyId × Nat)) (sp :: rest)
          = tallyFlat sp2 [] rest by
        simp [tallyFlat, List.foldl_cons, hsp]]
      exact ih om h
    · rw [show tallyBody sp2 om b (sp :: rest) = tallyBody sp2 (incrNested om b b2) b rest by
        simp [tallyBody, List.foldl_cons, hsp]]
      rw [show tallyFlat sp2 ([] : List (BodyId × Nat)) (sp :: rest)
          = tallyFlat sp2 (incrOverlap [] b2) rest by
        simp [tallyFlat, List.foldl_cons, hsp]]
      rw [if_neg (tallyFlat_ne_nil sp2 rest _ (incrOverlap_ne_nil [] b2))]
      have h2 : lookupKey (incrNested om b b2) b = some (incrOverlap [] b2) := by
        rw [lookupKey_incrNested_self, h]
        rfl
      exact lookupKey_tallyBody_some sp2 rest _ b _ h2

lemma lookupKey_overlapsMap_frame (sp2 : List (Superpixel × BodyId))
    (bmap : List (BodyId × List Superpixel))
    (om : List (BodyId × List (BodyId × Nat))) (b : BodyId)
    (h : b ∉ bmap.map Prod.fst) :
    lookupKey (bmap.foldl (fun om e => tallyBody sp2 om e.1 e.2) om) b
      = lookupKey om b := by
  induction bmap generalizing om with
  | nil => simp
  | cons e rest ih =>
    rw [List.map_cons, List.mem_cons] at h
    push_neg at h
    rw [List.foldl_cons, ih _ h.2]
    exact lookupKey_tallyBody_other sp2 e.2 om e.1 b h.1

lemma lookupKey_overlapsMap (sp2 : List (Superpixel × BodyId))
    (bmap : List (BodyId × List Superpixel))
    (om : List (BodyId × List (BodyId × Nat))) (b : BodyId)
    (sps : List Superpixel)
    (hnd : (bmap.map Prod.fst).Nodup) (hb : lookupKey bmap b = some sps)
    (h0 : lookupKey om b = none) :
    lookupKey (bmap.foldl (fun om e => tallyBody sp2 om e.1 e.2) om) b
      = if tallyFlat sp2 [] sps = [] then none else some (tallyFlat sp2 [] sps) := by
  induction bmap generalizing om with
  | nil => simp [lookupKey] at hb
  | cons e rest ih =>
    rw [List.map_cons, List.nodup_cons] at hnd
    by_cases he : e.1 = b
    · have hsps : e.2 = sps := by
        rw [show lookupKey (e :: rest) b = some e.2 by simp [lookupKey, he]] at hb
        exact (Option.some.injEq _ _ ▸ hb :)
      rw [List.foldl_cons]
      rw [lookupKey_overlapsMap_frame sp2 rest _ b (by rw [← he]; exact hnd.1)]
      rw [← hsps]
      have hres := lookupKey_tallyBody_none sp2 e.2 om e.1 (by rw [he]; exact h0)
      rw [← he]
      exact hres
    · rw [show lookupKey (e :: rest) b = lookupKey rest b by simp [lookupKey, he]] at hb
      rw [List.foldl_cons]
      refine ih _ hnd.2 hb ?_
      rw [lookupKey_tallyBody_other sp2 e.2 om e.1 b (fun hc => he hc.symm)]
      exact h0

lemma foldl_append_eq_map {α β : Type} (l : List α) (g : α → β) (acc : List β) :
    l.foldl (fun mm e => mm ++ [g e]) acc = acc ++ l.map g := by
  induction l generalizing acc with
  | nil => simp
  | cons e rest ih => simp [List.foldl_cons, ih]

lemma lookupKey_map_entry_some {β γ : Type} {l : List (BodyId × β)} {k : BodyId} {v : β}
    (h : lookupKey l k = some v) (g : BodyId → β → γ) :
    lookupKey (l.map (fun e => (e.1, g e.1 e.2))) k = some (g k v) := by
  induction l with
  | nil => cases h
  | cons e rest ih =>
    by_cases he : e.1 = k
    · rw [show lookupKey (e :: rest) k = some e.2 by simp [lookupKey, he]] at h
      have hv : e.2 = v := (Option.some.injEq _ _ ▸ h :)
      rw [List.map_cons]
      rw [show lookupKey ((e.1, g e.1 e.2) :: List.map (fun e => (e.1, g e.1 e.2)) rest) k
          = some (g e.1 e.2) by simp [lookupKey, he]]
      rw [he, hv]
    · rw [show lookupKey (e :: rest) k = lookupKey rest k by simp [lookupKey, he]] at h
      rw [List.map_cons]
      rw [show lookupKey ((e.1, g e.1 e.2) :: List.map (fun e => (e.1, g e.1 e.2)) rest) k
          = lookupKey (List.map (fun e => (e.1, g e.1 e.2)) rest) k by
        simp [lookupKey, he]]
      exact ih h

lemma lookupKey_map_entry_none {β γ : Type} {l : List (BodyId × β)} {k : BodyId}
    (h : lookupKey l k = none) (g : BodyId → β → γ) :
    lookupKey (l.map (fun e => (e.1, g e.1 e.2))) k = none := by
  induction l with
  | nil => rfl
  | cons e rest ih =>
    by_cases he : e.1 = k
    · rw [show lookupKey (e :: rest) k = some e.2 by simp [lookupKey, he]] at h
      cases h
    · rw [show lookupKey (e :: rest) k = lookupKey rest k by simp [lookupKey, he]] at h
      rw [List.map_cons]
      rw [show lookupKey ((e.1, g e.1 e.2) :: List.map (fun e => (e.1, g e.1 e.2)) rest) k
          = lookupKey (List.map (fun e => (e.1, g e.1 e.2)) rest) k by
        simp [lookupKey, he]]
      exact ih h

lemma insertAppendSp_keys_mem {m : List (BodyId × List Superpixel)} {b : BodyId}
    {sp : Superpixel} {k : BodyId}
    (h : k ∈ (insertAppendSp m b sp).map Prod.fst) : k ∈ m.map Prod.fst ∨ k = b := by
  induction m with
  | nil => simpa [insertAppendSp] using h
  | cons e rest ih =>
    obtain ⟨k2, sps⟩ := e
    by_cases h2 : k2 = b
    · rw [show insertAppendSp ((k2, sps) :: rest) b sp = (k2, sps ++ [sp]) :: rest by
        simp [insertAppendSp, h2]] at h
      rw [List.map_cons, List.mem_cons] at h
      rcases h with h | h
      · exact Or.inl (by rw [List.map_cons, List.mem_cons]; exact Or.inl h)
      · exact Or.inl (by rw [List.map_cons, List.mem_cons]; exact Or.inr h)
    · rw [show insertAppendSp ((k2, sps) :: rest) b sp
          = (k2, sps) :: insertAppendSp rest b sp by
        simp [insertAppendSp, h2]] at h
      rw [List.map_cons, List.mem_cons] at h
      rcases h with h | h
      · exact Or.inl (by rw [List.map_cons, List.mem_cons]; exact Or.inl h)
      · rcases ih h with h3 | h3
        · exact Or.inl (by rw [List.map_cons, List.mem_cons]; exact Or.inr h3)
        · exact Or.inr h3

lemma insertAppendSp_keys_nodup {m : List (BodyId × List Superpixel)} {b : BodyId}
    {sp : Superpixel} (h : (m.map Prod.fst).Nodup) :
    ((insertAppendSp m b sp).map Prod.fst).Nodup := by
  induction m with
  | nil => simp [insertAppendSp]
  | cons e rest ih =>
    obtain ⟨k2, sps⟩ := e
    rw [List.map_cons, List.nodup_cons] at h
    by_cases h2 : k2 = b
    · rw [show insertAppendSp ((k2, sps) :: rest) b sp = (k2, sps ++ [sp]) :: rest by
        simp [insertAppendSp, h2]]
      rw [List.map_cons, List.nodup_cons]
      exact h
    · rw [show insertAppendSp ((k2, sps) :: rest) b sp
          = (k2, sps) :: insertAppendSp rest b sp by
        simp [insertAppendSp, h2]]
      rw [List.map_cons, List.nodup_cons]
      refine ⟨?_, ih h.2⟩
      intro hmem
      rcases insertAppendSp_keys_mem hmem with h3 | h3
      · exact h.1 h3
      · exact h2 h3

lemma bodyToSpMap_foldl_keys_nodup (sp1 : List (Superpixel × BodyId))
    (bodySet : List BodyId) (acc : List (BodyId × List Superpixel))
    (hacc : (acc.map Prod.fst).Nodup) :
    ((sp1.foldl (fun m e => if e.2 ∈ bodySet then insertAppendSp m e.2 e.1 else m)
        acc).map Prod.fst).Nodup := by
  induction sp1 generalizing acc with
  | nil => simpa using hacc
  | cons e rest ih =>
    rw [List.foldl_cons]
    by_cases he : e.2 ∈ bodySet
    · rw [if_pos he]
      exact ih _ (insertAppendSp_keys_nodup hacc)
    · rw [if_neg he]
      exact ih _ hacc

lemma getBodyToSuperpixelsMap_keys_nodup (sp1 : List (Superpixel × BodyId))
    (bodySet : List BodyId) :
    ((GetBodyToSuperpixelsMap sp1 bodySet).map Prod.fst).Nodup :=
  bodyToSpMap_foldl_keys_nodup sp1 bodySet [] (by simp)

lemma bodyToSpMap_foldl_keys_origin (sp1 : List (Superpixel × BodyId))
    (bodySet : List BodyId) (acc : List (BodyId × List Superpixel)) (k : BodyId)
    (h : k ∈ ((sp1.foldl
        (fun m e => if e.2 ∈ bodySet then insertAppendSp m e.2 e.1 else m)
        acc).map Prod.fst)) :
    k ∈ acc.map Prod.fst ∨ ∃ p ∈ sp1, p.2 = k := by
  induction sp1 generalizing acc with
  | nil => exact Or.inl (by simpa using h)
  | cons e rest ih =>
    rw [List.foldl_cons] at h
    by_cases he : e.2 ∈ bodySet
    · rw [if_pos he] at h
      rcases ih _ h with h3 | ⟨p, hm, hp⟩
      · rcases insertAppendSp_keys_mem h3 with h4 | h4
        · exact Or.inl h4
        · exact Or.inr ⟨e, List.mem_cons_self _ _, h4.symm⟩
      · exact Or.inr ⟨p, List.mem_cons_of_mem _ hm, hp⟩
    · rw [if_neg he] at h
      rcases ih _ h with h3 | ⟨p, hm, hp⟩
      · exact Or.inl h3
      · exact Or.inr ⟨p, List.mem_cons_of_mem _ hm, hp⟩

lemma getBodyToSuperpixelsMap_absent (sp1 : List (Superpixel × BodyId))
    (bodySet : List BodyId) (b : BodyId) (h : ∀ p ∈ sp1, p.2 ≠ b) :
    lookupKey (GetBodyToSuperpixelsMap sp1 bodySet) b = none := by
  rw [lookupKey_nil_iff]
  intro hmem
  rcases bodyToSpMap_foldl_keys_origin sp1 bodySet [] b hmem with h3 | ⟨p, hm, hp⟩
  · simp at h3
  · exact h p hm hp

lemma overlapAnalysis_eq_map (sp1 sp2 : List (Superpixel × BodyId)) (bodySet : List BodyId) :
    OverlapAnalysis sp1 sp2 bodySet
      = (OverlapsMapOf sp2 (GetBodyToSuperpixelsMap sp1 bodySet)).map
          (fun e => (e.1, (⟨(bestIn e.2).2, (bestIn e.2).1,
            ((lookupKey (GetBodyToSuperpixelsMap sp1 bodySet) e.1).getD []).length⟩
              : BestOverlap))) := by
  unfold OverlapAnalysis
  rw [foldl_append_eq_map]
  simp

/-- C3: a source body whose inverse-index entry holds exactly 10
superpixels, 8 resolving in the target map to nonzero body A and 2 to a
different nonzero body B, is matched to BestOverlap(A, 8, 10); and in
general MaxOverlap is the number of superpixels the source body has in
the source stack's inverse index. -/
theorem C3_best_overlap_eight_of_ten (sp1 sp2 : List (Superpixel × BodyId))
    (bodySet : List BodyId) (b A B : BodyId) (sps : List Superpixel)
    (hb : lookupKey (GetBodyToSuperpixelsMap sp1 bodySet) b = some sps)
    (hlen : sps.length = 10)
    (hAB : ∀ sp ∈ sps, lookupKey sp2 sp = some A ∨ lookupKey sp2 sp = some B)
    (hA : sps.countP (fun sp => decide (lookupKey sp2 sp = some A)) = 8)
    (hB : sps.countP (fun sp => decide (lookupKey sp2 sp = some B)) = 2)
    (hABne : A ≠ B) (hA0 : A ≠ 0) (hB0 : B ≠ 0) :
    lookupKey (OverlapAnalysis sp1 sp2 bodySet) b = some ⟨A, 8, 10⟩ ∧
      ∀ b2 bo, lookupKey (OverlapAnalysis sp1 sp2 bodySet) b2 = some bo →
        bo.MaxOverlap
          = ((lookupKey (GetBodyToSuperpixelsMap sp1 bodySet) b2).getD []).length := by
  have hcA : lookupKey (tallyFlat sp2 [] sps) A = some 8 := by
    refine getD_eq_some ?_ (by decide)
    rw [tallyFlat_count, hA]
    rfl
  have hcB : lookupKey (tallyFlat sp2 [] sps) B = some 2 := by
    refine getD_eq_some ?_ (by decide)
    rw [tallyFlat_count, hB]
    rfl
  have hnd_tl : ((tallyFlat sp2 [] sps).map Prod.fst).Nodup :=
    tallyFlat_keys_nodup sp2 sps [] (by simp)
  have hsub : ∀ e ∈ tallyFlat sp2 [] sps, e.1 = A ∨ e.1 = B := by
    intro e he
    have hmem : e.1 ∈ (tallyFlat sp2 [] sps).map Prod.fst :=
      List.mem_map_of_mem _ he
    rcases tallyFlat_keys sp2 sps [] e.1 hmem with h3 | ⟨sp, hm, hl⟩
    · simp at h3
    · rcases hAB sp hm with h4 | h4
      · rw [hl] at h4
        exact Or.inl (Option.some.injEq _ _ ▸ h4 :)
      · rw [hl] at h4
        exact Or.inr (Option.some.injEq _ _ ▸ h4 :)
  have hbest := bestIn_eight_two hnd_tl hsub hABne hcA hcB
  have htl_ne : tallyFlat sp2 [] sps ≠ [] := by
    intro hc
    rw [hc] at hcA
    cases hcA
  have hover : lookupKey
      (OverlapsMapOf sp2 (GetBodyToSuperpixelsMap sp1 bodySet)) b
        = some (tallyFlat sp2 [] sps) := by
    unfold OverlapsMapOf
    rw [lookupKey_overlapsMap sp2 _ [] b sps
      (getBodyToSuperpixelsMap_keys_nodup sp1 bodySet) hb rfl]
    rw [if_neg htl_ne]
  constructor
  · rw [overlapAnalysis_eq_map]
    have hmap := lookupKey_map_entry_some hover
      (fun k ov => (⟨(bestIn ov).2, (bestIn ov).1,
        ((lookupKey (GetBodyToSuperpixelsMap sp1 bodySet) k).getD []).length⟩ : BestOverlap))
    simp only [hbest, hb] at hmap
    simp only [hlen, Option.getD_some] at hmap
    exact hmap
  · intro b2 bo hbo
    rw [overlapAnalysis_eq_map] at hbo
    rcases hlk : lookupKey
        (OverlapsMapOf sp2 (GetBodyToSuperpixelsMap sp1 bodySet)) b2 with _ | ov
    · have hmapn := lookupKey_map_entry_none hlk
        (fun k ov => (⟨(bestIn ov).2, (bestIn ov).1,
          ((lookupKey (GetBodyToSuperpixelsMap sp1 bodySet) k).getD []).length⟩ : BestOverlap))
      exact Option.noConfusion (hbo.symm.trans hmapn)
    · have hmaps := lookupKey_map_entry_some hlk
        (fun k ov => (⟨(bestIn ov).2, (bestIn ov).1,
          ((lookupKey (GetBodyToSuperpixelsMap sp1 bodySet) k).getD []).length⟩ : BestOverlap))
      have heq := (Option.some.injEq _ _).mp (hmaps.symm.trans hbo)
      rw [← heq]

/-- C4 amended: a source body absent entirely from the source stack's
composed table, or present but with none of its superpixels resolving in
the target stack's composed map, is omitted from the returned
BestOverlapMap (no entry at all — in particular no BodyId-0 entry); only
a warning or an aggregate not-found count is logged for it. -/
theorem C4_unmatched_body_omitted (sp1 sp2 : List (Superpixel × BodyId))
    (bodySet : List BodyId) (b : BodyId)
    (h : (∀ p ∈ sp1, p.2 ≠ b) ∨
      ∃ sps, lookupKey (GetBodyToSuperpixelsMap sp1 bodySet) b = some sps ∧
        ∀ sp ∈ sps, lookupKey sp2 sp = none) :
    lookupKey (OverlapAnalysis sp1 sp2 bodySet) b = none := by
  rw [overlapAnalysis_eq_map]
  have hnone : lookupKey
      (OverlapsMapOf sp2 (GetBodyToSuperpixelsMap sp1 bodySet)) b = none := by
    rcases h with h | ⟨sps, hb, hall⟩
    · have habs := getBodyToSuperpixelsMap_absent sp1 bodySet b h
      have hnotin := lookupKey_nil_iff.mp habs
      unfold OverlapsMapOf
      rw [lookupKey_overlapsMap_frame sp2 _ [] b hnotin]
      rfl
    · have h0 : tallyFlat sp2 [] sps = [] := tallyFlat_all_missing sp2 sps [] hall
      unfold OverlapsMapOf
      rw [lookupKey_overlapsMap sp2 _ [] b sps
        (getBodyToSuperpixelsMap_keys_nodup sp1 bodySet) hb rfl]
      rw [if_pos h0]
  exact lookupKey_map_entry_none hnone
    (fun k ov => (⟨(bestIn ov).2, (bestIn ov).1,
      ((lookupKey (GetBodyToSuperpixelsMap sp1 bodySet) k).getD []).length⟩ : BestOverlap))

/-- C5 amended: when the source's float32 computation finds more than 10%
voxel difference between the two stacks' superpixel bounds — that is,
when float32(voxelsDiff)/float32(voxelsTotal) compares greater than the
float32 constant 0.10 — the gated overlap matching aborts fatally
instead of returning a result.  Exact ratios exceeding 10% by less than
a float32 rounding step need not trip the gate. -/
theorem C5_quality_gate_aborts (spBounds1 spBounds2 : List (Superpixel × SuperpixelBound))
    (sp1 sp2 : List (Superpixel × BodyId)) (bodySet : List BodyId)
    (h : gateTrips (voxelsDiffOf spBounds1 spBounds2) (totalVoxels spBounds1) = true) :
    OverlapAnalysisGated spBounds1 spBounds2 sp1 sp2 bodySet
      = Except.error
          "FATAL ERROR: More than 10% voxel difference in superpixels between stacks" := by
  unfold OverlapAnalysisGated SuperpixelBoundsChanged
  rw [if_pos h]

set_option maxRecDepth 1000000 in
/-- C5 counterexample: the bounds differ by voxelsDiff = 100000001 out of
voxelsTotal = 10^9 — strictly more than 10% of the total voxel volume —
yet float32(100000001) rounds to 10^8, the float32 quotient rounds to
exactly the float32 value of 0.10, the strict comparison fails, and the
gated matching returns a result instead of aborting. -/
theorem C5_counterexample :
    totalVoxels [(⟨0, 1⟩, ⟨0, 0, 1, 1, 1000000000⟩)] > 0 ∧
    10 * voxelsDiffOf [(⟨0, 1⟩, ⟨0, 0, 1, 1, 1000000000⟩)]
        [(⟨0, 1⟩, ⟨0, 0, 1, 1, 899999999⟩)]
      > totalVoxels [(⟨0, 1⟩, ⟨0, 0, 1, 1, 1000000000⟩)] ∧
    OverlapAnalysisGated [(⟨0, 1⟩, ⟨0, 0, 1, 1, 1000000000⟩)]
        [(⟨0, 1⟩, ⟨0, 0, 1, 1, 899999999⟩)] [] [] []
      = Except.ok [] := by
  decide

set_option maxRecDepth 1000000 in
/-- Witness for the amended C5 theorem: one 100-voxel superpixel missing
entirely from the second stack (100% difference, well above the float32
threshold). -/
theorem C5_quality_gate_aborts_witness :
    gateTrips (voxelsDiffOf [(⟨0, 1⟩, ⟨0, 0, 1, 1, 100⟩)] [])
        (totalVoxels [(⟨0, 1⟩, ⟨0, 0, 1, 1, 100⟩)]) = true ∧
    OverlapAnalysisGated [(⟨0, 1⟩, ⟨0, 0, 1, 1, 100⟩)] [] [] [] []
      = Except.error
          "FATAL ERROR: More than 10% voxel difference in superpixels between stacks" :=
  ⟨by decide,
    C5_quality_gate_aborts [(⟨0, 1⟩, ⟨0, 0, 1, 1, 100⟩)] [] [] [] [] (by decide)⟩

/-- C4 counterexample: body 5 is absent from the source table (which maps
superpixel (0,1) to body 3 only), yet `OverlapAnalysis` produces no entry
at all for body 5 — in particular not the BodyId-0 entry the claim
requires. -/
theorem C4_counterexample :
    (∀ p ∈ [((⟨0, 1⟩ : Superpixel), (3 : BodyId))], p.2 ≠ (5 : BodyId)) ∧
    lookupKey (OverlapAnalysis [(⟨0, 1⟩, 3)] [(⟨0, 1⟩, 9)] [5]) (5 : BodyId) = none := by
  decide

/-- Witness for the amended C4 theorem at the same concrete input. -/
theorem C4_unmatched_body_omitted_witness :
    ((∀ p ∈ [((⟨0, 1⟩ : Superpixel), (3 : BodyId))], p.2 ≠ (5 : BodyId)) ∨
      ∃ sps, lookupKey (GetBodyToSuperpixelsMap [(⟨0, 1⟩, 3)] [5]) 5 = some sps ∧
        ∀ sp ∈ sps, lookupKey [((⟨0, 1⟩ : Superpixel), (9 : BodyId))] sp = none) ∧
    lookupKey (OverlapAnalysis [(⟨0, 1⟩, 3)] [(⟨0, 1⟩, 9)] [5]) (5 : BodyId) = none :=
  ⟨Or.inl (by decide),
    C4_unmatched_body_omitted [(⟨0, 1⟩, 3)] [(⟨0, 1⟩, 9)] [5] 5 (Or.inl (by decide))⟩

/-- Witness for C3: body 5 with ten superpixels, eight resolving to
target body 21 and two to target body 22. -/
theorem C3_best_overlap_eight_of_ten_witness :
    lookupKey (GetBodyToSuperpixelsMap sp1C3w [5]) 5 = some spsC3w ∧
    spsC3w.length = 10 ∧
    (∀ sp ∈ spsC3w, lookupKey sp2C3w sp = some 21 ∨ lookupKey sp2C3w sp = some 22) ∧
    spsC3w.countP (fun sp => decide (lookupKey sp2C3w sp = some 21)) = 8 ∧
    spsC3w.countP (fun sp => decide (lookupKey sp2C3w sp = some 22)) = 2 ∧
    (21 : BodyId) ≠ 22 ∧ (21 : BodyId) ≠ 0 ∧ (22 : BodyId) ≠ 0 ∧
    (lookupKey (OverlapAnalysis sp1C3w sp2C3w [5]) 5 = some ⟨21, 8, 10⟩ ∧
      ∀ b2 bo, lookupKey (OverlapAnalysis sp1C3w sp2C3w [5]) b2 = some bo →
        bo.MaxOverlap
          = ((lookupKey (GetBodyToSuperpixelsMap sp1C3w [5]) b2).getD []).length) :=
  ⟨by decide, by decide, by decide, by decide, by decide, by decide, by decide, by decide,
    C3_best_overlap_eight_of_ten sp1C3w sp2C3w [5] 5 21 22 spsC3w
      (by decide) (by decide) (by decide) (by decide) (by decide)
      (by decide) (by decide) (by decide)⟩
